import Mathlib

/-!
# Cart operations of `pkg/magento2/cart.go`

A shallow embedding of the cart resource of the Magento2 client.  The remote
system is a transition function on an arbitrary state `σ`; every request that
is handed to the HTTP client is appended to a log, so that the order and the
number of round-trips of each operation can be stated and proved.
-/

set_option autoImplicit false

deriving instance DecidableEq for Except

namespace Magento2

/-! ## Go standard library: `strconv.Itoa` and `strconv.Atoi` (64-bit `int`) -/

/-- The ASCII digit of a value below ten. -/
def digitChar (d : Nat) : Char := Char.ofNat (48 + d)

/-- The value of an ASCII digit, `none` for every other character. -/
def digitVal (c : Char) : Option Nat :=
  if 48 ≤ c.toNat ∧ c.toNat ≤ 57 then some (c.toNat - 48) else none

/-- Decimal digits of `n`, most significant first, in front of `acc`; the
first argument bounds the number of digits produced. -/
def formatUint : Nat → Nat → List Char → List Char
  | 0, _, acc => acc
  | fuel + 1, n, acc =>
    if n < 10 then digitChar n :: acc
    else formatUint fuel (n / 10) (digitChar (n % 10) :: acc)

/-- Go `strconv.Itoa`: a minus sign for a negative value, then the decimal
digits of the magnitude without leading zeros. -/
def Itoa (i : Int) : String :=
  if i < 0 then ⟨'-' :: formatUint (i.natAbs + 1) i.natAbs []⟩
  else ⟨formatUint (i.natAbs + 1) i.natAbs []⟩

/-- The two failures of Go `strconv` parsing. -/
inductive NumError where
  | ErrSyntax
  | ErrRange
deriving DecidableEq, Repr

/-- Go `strconv.ParseUint(s, 10, 64)` on a non-empty digit string, reading
left to right from the accumulated value `n`: a character that is not a digit
is a syntax failure, a value that leaves 64 bits a range failure. -/
def parseUint : List Char → Nat → Except NumError Nat
  | [], n => .ok n
  | c :: cs, n =>
    match digitVal c with
    | none => .error .ErrSyntax
    | some d =>
      if 2 ^ 64 ≤ n * 10 + d then .error .ErrRange
      else parseUint cs (n * 10 + d)

/-- Go `strconv.Atoi` for a 64-bit `int`: an optional sign, then at least one
decimal digit; the value has to lie in `[-2^63, 2^63)`. -/
def Atoi (s : String) : Except NumError Int :=
  match s.data with
  | [] => .error .ErrSyntax
  | c :: cs =>
    let neg := decide (c = '-')
    let ds := if c = '-' ∨ c = '+' then cs else c :: cs
    match ds with
    | [] => .error .ErrSyntax
    | _ :: _ =>
      match parseUint ds 0 with
      | .error e => .error e
      | .ok un =>
        if neg then
          if 2 ^ 63 < un then .error .ErrRange else .ok (-(un : Int))
        else
          if 2 ^ 63 ≤ un then .error .ErrRange else .ok (un : Int)

/-! ## `internal/utils` -/

/-- Modelled from the spec: `utils.MayTrimSurroundingQuotes` is not among the
sources.  The spec has the implementation "strip any surrounding quote
characters" of a "possibly quote-wrapped" body: a text that starts and ends
with a double quote loses that pair, any other text is returned as it is. -/
def MayTrimSurroundingQuotes (s : String) : String :=
  match s.data with
  | [] => s
  | c :: rest => if c = '"' ∧ rest.getLast? = some '"' then ⟨rest.dropLast⟩ else s

/-! ## Data model -/

/-- Modelled from the spec: the declaration of `Item` is not among the
sources.  A line item of a cart, "{ itemID: int, sku, quantity, quoteID }";
`ItemID` and `QuoteID` are the two fields `cart.go` reads and writes. -/
structure Item where
  ItemID : Int
  Sku : String
  Qty : Int
  QuoteID : String
deriving DecidableEq, Repr

/-- Modelled from the spec: the declaration of `DetailedCart` is not among the
sources.  The "full snapshot of cart state (items, totals)"; `Items` is the
field `cart.go` reads. -/
structure DetailedCart where
  Items : List Item
  Totals : Int
deriving DecidableEq, Repr

/-- The zero value `DetailedCart{}`. -/
instance : Inhabited DetailedCart := ⟨⟨[], 0⟩⟩

/-- Modelled from the spec: the declaration of `Address` is not among the
sources.  The "shipping-estimate input — street, city, region, postcode,
country code". -/
structure Address where
  Street : String
  City : String
  Region : String
  Postcode : String
  CountryCode : String
deriving DecidableEq, Repr

/-- Modelled from the spec: the declaration of `AddressInformation` is not
among the sources.  The "full shipping selection — address + selected
shipping method". -/
structure AddressInformation where
  ShippingAddress : Address
  ShippingMethod : String
deriving DecidableEq, Repr

/-- Modelled from the spec: the declaration of `Carrier` is not among the
sources.  A "shipping option returned by estimation, carrying a method code
and price" (the price in the smallest currency unit). -/
structure Carrier where
  MethodCode : String
  Price : Int
deriving DecidableEq, Repr

/-- Modelled from the spec: the declaration of `PaymentMethod` is not among
the sources.  An "available payment option"; `Code` is the field `cart.go`
reads. -/
structure PaymentMethod where
  Code : String
  Title : String
deriving DecidableEq, Repr

/-- Modelled from the spec: the declaration of `PaymentMethodCode` is not
among the sources.  "The code submitted to place the order"; `Method` is the
field `cart.go` fills in. -/
structure PaymentMethodCode where
  Method : String
deriving DecidableEq, Repr

/-! ## Wire model -/

/-- The HTTP methods the cart uses. -/
inductive Method where
  | GET
  | POST
  | PUT
  | DELETE
deriving DecidableEq, Repr

/-- The request bodies of `cart.go`: the function-local `PayLoad` envelopes,
one per JSON key, and the absent body of a GET or DELETE. -/
inductive PayLoad where
  | empty
  | CartItem (item : Item)
  | Address (addrInfo : Address)
  | AddressInformation (addrInfo : AddressInformation)
  | PaymentMethod (code : PaymentMethodCode)
deriving DecidableEq, Repr

/-- One request handed to the HTTP client. -/
structure Request where
  method : Method
  url : String
  body : PayLoad
deriving DecidableEq, Repr

/-- What `cart.go` reads off a response: `StatusCode()`, the raw body
`String()`, and `Result()` for each of the three result types a request of
`cart.go` can ask the client to decode into.  The three results are whatever
the HTTP client has left in them; `Answer.received` below is the way the
client fills them from what the remote system sent. -/
structure Response where
  StatusCode : Int
  String : String
  detailedCart : DetailedCart
  carriers : List Carrier
  paymentMethods : List PaymentMethod
deriving DecidableEq, Repr

/-- A round-trip ends in a transport failure (the `err` of the client, kept
as its text) or in a response. -/
abbrev Reply := Except String Response

/-- What the remote system puts on the wire: the status code, the raw body,
and the value that body decodes to as each of the three result types. -/
structure Answer where
  StatusCode : Int
  Body : String
  detailedCart : DetailedCart
  carriers : List Carrier
  paymentMethods : List PaymentMethod
deriving DecidableEq, Repr

/-- The response the HTTP client library makes of an answer.  The library
decodes the body into the value given to `SetResult` for a success status
only, 200 to 299; for every other status `Result()` still is the value the
method of `cart.go` put there, `&DetailedCart{}` or an empty slice. -/
def Answer.received (a : Answer) : Response :=
  if 200 ≤ a.StatusCode ∧ a.StatusCode < 300 then
    ⟨a.StatusCode, a.Body, a.detailedCart, a.carriers, a.paymentMethods⟩
  else ⟨a.StatusCode, a.Body, default, [], []⟩

/-- Modelled from the spec: the declaration of `ApiClient` is not among the
sources.  It holds the "authenticated transport", the one field `cart.go`
uses: `HttpClient` takes the remote system from one state to the next and
answers the request. -/
structure ApiClient (σ : Type) where
  HttpClient : σ → Request → σ × Reply

/-- The cart resource (`type Cart struct`). -/
structure Cart (σ : Type) where
  Route : String
  QuoteID : String
  Detailed : DetailedCart
  ApiClient : ApiClient σ

/-- Modelled from the spec: the declaration of `Order` is not among the
sources; its three fields are those of the literal `CreateOrder` builds. -/
structure Order (σ : Type) where
  ID : Int
  ApiClient : ApiClient σ
  Route : String

/-- The errors of `cart.go`, one constructor per `fmt.Errorf` text, carrying
the values the text is formatted from. -/
inductive Error where
  | getDetails (err : String)
  | statusCode (code : Int) (resp : String)
  | statusCodeBody (code : Int) (resp : String) (body : PayLoad)
  | updateSelf (err : Error)
  | addItem (item : Item) (err : String)
  | estimateShipping (err : String)
  | noShipping (resp : String)
  | addShipping (err : String)
  | estimatePayment (err : String)
  | noPayment (resp : String)
  | createOrder (err : String)
  | orderID (err : NumError)
  | deleteItem (err : String)
deriving DecidableEq, Repr

/-- Modelled from the spec: the route constants are not among the sources;
the interface table gives the path of "Add item" as `/items`. -/
def cartItems : String := "/items"

/-- Modelled from the spec: the path of "Estimate shipping". -/
def cartShippingCosts : String := "/estimate-shipping-methods"

/-- Modelled from the spec: the path of "Set shipping info". -/
def cartShippingInformation : String := "/shipping-information"

/-- Modelled from the spec: the path of "Estimate payment". -/
def cartPaymentMethods : String := "/payment-methods"

/-- Modelled from the spec: the path of "Place order". -/
def cartPlaceOrder : String := "/payment-information"

/-- The remote system together with the log of the requests issued so far,
oldest first. -/
structure Net (σ : Type) where
  remote : σ
  sent : List Request

/-- The outcome of a method call: the network afterwards, the receiver
`*cart` afterwards, and the returned value. -/
structure Run (σ : Type) (α : Type) where
  net : Net σ
  cart : Cart σ
  ret : α

/-- The outcome of `AddItems`, which also has the caller's slice in reach:
`items` is the content of that slice afterwards. -/
structure ItemsRun (σ : Type) where
  net : Net σ
  cart : Cart σ
  items : List Item
  ret : Option Error

variable {σ : Type}

/-- One round-trip: the request is logged and the remote system answers. -/
def Net.execute (w : Net σ) (client : ApiClient σ) (req : Request) : Net σ × Reply :=
  let out := client.HttpClient w.remote req
  (⟨out.1, w.sent ++ [req]⟩, out.2)

/-! ## The methods of `Cart` -/

/-- `func (cart *Cart) GetDetails() (DetailedCart, error)`.  The value Go
returns next to a non-nil error is left out, here and in the two estimates. -/
def Cart.GetDetails (cart : Cart σ) (w : Net σ) : Run σ (Except Error DetailedCart) :=
  let out := w.execute cart.ApiClient ⟨.GET, cart.Route, .empty⟩
  match out.2 with
  | .error err => ⟨out.1, cart, .error (.getDetails err)⟩
  | .ok resp =>
    if resp.StatusCode ≥ 400 then
      ⟨out.1, cart, .error (.statusCode resp.StatusCode resp.String)⟩
    else ⟨out.1, cart, .ok resp.detailedCart⟩

/-- `func (cart *Cart) UpdateSelf() error`. -/
def Cart.UpdateSelf (cart : Cart σ) (w : Net σ) : Run σ (Option Error) :=
  let r := cart.GetDetails w
  match r.ret with
  | .error err => ⟨r.net, r.cart, some (.updateSelf err)⟩
  | .ok newDetails => ⟨r.net, { r.cart with Detailed := newDetails }, none⟩

/-- The `for _, item := range items` loop of `AddItems`: `done` are the
elements of the slice already visited, `todo` those still to visit.  The loop
variable is a copy of the element, so the slice keeps the element as it was.
The error is `none` when the loop ran to its end, and the error of the
`return` inside the loop otherwise. -/
def Cart.addItemsLoop (cart : Cart σ) :
    List Item → List Item → Net σ → Net σ × List Item × Option Error
  | done, [], w => (w, done, none)
  | done, elem :: todo, w =>
    let item : Item := { elem with QuoteID := cart.QuoteID }
    let out := w.execute cart.ApiClient ⟨.POST, cart.Route ++ cartItems, .CartItem item⟩
    match out.2 with
    | .error err => (out.1, done ++ elem :: todo, some (.addItem item err))
    | .ok resp =>
      if resp.StatusCode ≥ 400 then
        (out.1, done ++ elem :: todo,
          some (.statusCodeBody resp.StatusCode resp.String (.CartItem item)))
      else cart.addItemsLoop (done ++ [elem]) todo out.1

/-- `func (cart *Cart) AddItems(items []Item) error`. -/
def Cart.AddItems (cart : Cart σ) (items : List Item) (w : Net σ) : ItemsRun σ :=
  match cart.addItemsLoop [] items w with
  | (w1, slice, some err) => ⟨w1, cart, slice, some err⟩
  | (w1, slice, none) =>
    let r := cart.UpdateSelf w1
    match r.ret with
    | some err => ⟨r.net, r.cart, slice, some err⟩
    | none => ⟨r.net, r.cart, slice, none⟩

/-- `func (cart *Cart) EstimateShippingCarrier(addrInfo Address) ([]Carrier, error)`. -/
def Cart.EstimateShippingCarrier (cart : Cart σ) (addrInfo : Address) (w : Net σ) :
    Run σ (Except Error (List Carrier)) :=
  let out := w.execute cart.ApiClient
    ⟨.POST, cart.Route ++ cartShippingCosts, .Address addrInfo⟩
  match out.2 with
  | .error err => ⟨out.1, cart, .error (.estimateShipping err)⟩
  | .ok resp =>
    if resp.StatusCode ≥ 400 then
      ⟨out.1, cart, .error (.statusCode resp.StatusCode resp.String)⟩
    else if resp.carriers.length = 0 then
      ⟨out.1, cart, .error (.noShipping resp.String)⟩
    else ⟨out.1, cart, .ok resp.carriers⟩

/-- `func (cart *Cart) AddShippingInformation(addrInfo AddressInformation) error`. -/
def Cart.AddShippingInformation (cart : Cart σ) (addrInfo : AddressInformation)
    (w : Net σ) : Run σ (Option Error) :=
  let out := w.execute cart.ApiClient
    ⟨.POST, cart.Route ++ cartShippingInformation, .AddressInformation addrInfo⟩
  match out.2 with
  | .error err => ⟨out.1, cart, some (.addShipping err)⟩
  | .ok resp =>
    if resp.StatusCode ≥ 400 then
      ⟨out.1, cart, some (.statusCode resp.StatusCode resp.String)⟩
    else
      let r := cart.UpdateSelf out.1
      match r.ret with
      | some err => ⟨r.net, r.cart, some err⟩
      | none => ⟨r.net, r.cart, none⟩

/-- `func (cart *Cart) EstimatePaymentMethods() ([]PaymentMethod, error)`. -/
def Cart.EstimatePaymentMethods (cart : Cart σ) (w : Net σ) :
    Run σ (Except Error (List PaymentMethod)) :=
  let out := w.execute cart.ApiClient ⟨.GET, cart.Route ++ cartPaymentMethods, .empty⟩
  match out.2 with
  | .error err => ⟨out.1, cart, .error (.estimatePayment err)⟩
  | .ok resp =>
    if resp.StatusCode ≥ 400 then
      ⟨out.1, cart, .error (.statusCode resp.StatusCode resp.String)⟩
    else if resp.paymentMethods.length = 0 then
      ⟨out.1, cart, .error (.noPayment resp.String)⟩
    else ⟨out.1, cart, .ok resp.paymentMethods⟩

/-- `func (cart *Cart) CreateOrder(paymentMethod PaymentMethod) (*Order, error)`.
The constant `order`, the base route of the orders, is not among the sources
and the spec does not give its text: it is the first argument. -/
def Cart.CreateOrder (order : String) (cart : Cart σ) (paymentMethod : PaymentMethod)
    (w : Net σ) : Run σ (Except Error (Order σ)) :=
  let out := w.execute cart.ApiClient
    ⟨.PUT, cart.Route ++ cartPlaceOrder, .PaymentMethod ⟨paymentMethod.Code⟩⟩
  match out.2 with
  | .error err => ⟨out.1, cart, .error (.createOrder err)⟩
  | .ok resp =>
    if resp.StatusCode ≥ 400 then
      ⟨out.1, cart, .error (.statusCode resp.StatusCode resp.String)⟩
    else
      let orderIDString := MayTrimSurroundingQuotes resp.String
      match Atoi orderIDString with
      | .error err => ⟨out.1, cart, .error (.orderID err)⟩
      | .ok orderIDInt =>
        ⟨out.1, cart, .ok ⟨orderIDInt, cart.ApiClient, order ++ "/" ++ orderIDString⟩⟩

/-- `func (cart *Cart) DeleteItem(itemID int) error`. -/
def Cart.DeleteItem (cart : Cart σ) (itemID : Int) (w : Net σ) : Run σ (Option Error) :=
  let out := w.execute cart.ApiClient
    ⟨.DELETE, cart.Route ++ cartItems ++ "/" ++ Itoa itemID, .empty⟩
  match out.2 with
  | .error err => ⟨out.1, cart, some (.deleteItem err)⟩
  | .ok resp =>
    if resp.StatusCode ≥ 400 then
      ⟨out.1, cart, some (.statusCode resp.StatusCode resp.String)⟩
    else ⟨out.1, cart, none⟩

/-- The `for i := range cart.Detailed.Items` loop of `DeleteAllItems`, over
the elements the range expression had when the loop was entered. -/
def Cart.deleteLoop : Cart σ → List Item → Net σ → Run σ (Option Error)
  | cart, [], w => ⟨w, cart, none⟩
  | cart, elem :: rest, w =>
    let r := cart.DeleteItem elem.ItemID w
    match r.ret with
    | some err => ⟨r.net, r.cart, some err⟩
    | none => Cart.deleteLoop r.cart rest r.net

/-- `func (cart *Cart) DeleteAllItems() error`. -/
def Cart.DeleteAllItems (cart : Cart σ) (w : Net σ) : Run σ (Option Error) :=
  let r := cart.UpdateSelf w
  match r.ret with
  | some err => ⟨r.net, r.cart, some err⟩
  | none => r.cart.deleteLoop r.cart.Detailed.Items r.net

/-! ## Vocabulary of the statements -/

/-- A round-trip has failed when the transport gave an error or the status
code is 400 or above. -/
def failed : Reply → Bool
  | .error _ => true
  | .ok resp => decide (resp.StatusCode ≥ 400)

/-- The replies the remote system gives when the requests are served one
after another, starting in state `s`. -/
def replies (client : ApiClient σ) : σ → List Request → List Reply
  | _, [] => []
  | s, req :: reqs =>
    (client.HttpClient s req).2 :: replies client (client.HttpClient s req).1 reqs

/-- The state of the remote system after it has served the requests. -/
def remoteAfter (client : ApiClient σ) : σ → List Request → σ
  | s, [] => s
  | s, req :: reqs => remoteAfter client (client.HttpClient s req).1 reqs

/-- The network after the requests have been issued through `client`. -/
def Net.after (w : Net σ) (client : ApiClient σ) (reqs : List Request) : Net σ :=
  ⟨remoteAfter client w.remote reqs, w.sent ++ reqs⟩

/-- The GET of the cart route. -/
def Cart.getRequest (cart : Cart σ) : Request := ⟨.GET, cart.Route, .empty⟩

/-- The POST that adds `elem`: to `<route>/items`, carrying the element with
the `QuoteID` of the cart and every other field as given. -/
def Cart.itemPost (cart : Cart σ) (elem : Item) : Request :=
  ⟨.POST, cart.Route ++ "/items", .CartItem { elem with QuoteID := cart.QuoteID }⟩

/-- The DELETE of one item: to `<route>/items/<itemID>`. -/
def Cart.itemDelete (cart : Cart σ) (itemID : Int) : Request :=
  ⟨.DELETE, cart.Route ++ "/items" ++ "/" ++ Itoa itemID, .empty⟩

/-- The POST of the shipping information. -/
def Cart.shippingPost (cart : Cart σ) (addrInfo : AddressInformation) : Request :=
  ⟨.POST, cart.Route ++ "/shipping-information", .AddressInformation addrInfo⟩

/-- A text is a decimal integer when it is an optional sign followed by at
least one character, all of them ASCII digits. -/
def isIntegerText (s : String) : Bool :=
  match s.data with
  | [] => false
  | c :: cs =>
    let ds := if c = '-' ∨ c = '+' then cs else c :: cs
    !ds.isEmpty && ds.all fun ch => (digitVal ch).isSome

/-- The PUT that places the order. -/
def Cart.orderPut (cart : Cart σ) (paymentMethod : PaymentMethod) : Request :=
  ⟨.PUT, cart.Route ++ "/payment-information", .PaymentMethod ⟨paymentMethod.Code⟩⟩

/-- A payment method for the scripted remote system. -/
def demoPayment : PaymentMethod := ⟨"checkmo", "Check / Money order"⟩

/-- The POST of the shipping estimate. -/
def Cart.estimatePost (cart : Cart σ) (addrInfo : Address) : Request :=
  ⟨.POST, cart.Route ++ "/estimate-shipping-methods", .Address addrInfo⟩

/-- The GET of the payment methods. -/
def Cart.paymentGet (cart : Cart σ) : Request :=
  ⟨.GET, cart.Route ++ "/payment-methods", .empty⟩

/-- A remote system that answers from a script: each request takes the next
reply of the list, and the connection is gone when the list is used up. -/
def scripted : ApiClient (List Reply) where
  HttpClient
    | [], _ => ([], .error "EOF")
    | reply :: script, _ => (script, reply)

/-- A response with the given status code and raw body and zero results. -/
def plain (code : Int) (body : String) : Reply := .ok ⟨code, body, default, [], []⟩

/-- A response with status 200 whose body decodes to the snapshot `d`. -/
def snapshot (d : DetailedCart) : Reply := .ok ⟨200, "", d, [], []⟩

/-- A cart of the scripted remote system, its `Detailed` still the zero value. -/
def demoCart : Cart (List Reply) := ⟨"/carts/7", "q7", default, scripted⟩

/-- Three items for the scripted remote system, the second with a stale
`QuoteID`. -/
def demoItems : List Item :=
  [⟨1, "sku-a", 2, ""⟩, ⟨2, "sku-b", 1, "stale"⟩, ⟨3, "sku-c", 5, ""⟩]

/-- A snapshot that lists the three items. -/
def demoSnapshot : DetailedCart := ⟨demoItems, 8⟩

/-- A shipping selection for the scripted remote system. -/
def demoShipping : AddressInformation :=
  ⟨⟨"1 Main St", "Springfield", "IL", "62701", "US"⟩, "flatrate"⟩

/-- An address for the scripted remote system. -/
def demoAddress : Address := ⟨"1 Main St", "Springfield", "IL", "62701", "US"⟩

/-- The response the client makes of an answer with the given status code
whose body decodes to the carriers and to the payment methods given. -/
def offer (code : Int) (carriers : List Carrier) (methods : List PaymentMethod) : Reply :=
  .ok (Answer.received ⟨code, "", default, carriers, methods⟩)

/-- The response the client makes of an answer with the given status code
whose body decodes to the snapshot `d`. -/
def carted (code : Int) (d : DetailedCart) : Reply :=
  .ok (Answer.received ⟨code, "", d, [], []⟩)

/-! ## Lemmas on `strconv` and on the quotes -/

theorem digitVal_digitChar (d : Nat) (h : d < 10) : digitVal (digitChar d) = some d := by
  interval_cases d <;> decide

theorem digitChar_ne_sign (d : Nat) (h : d < 10) :
    digitChar d ≠ '-' ∧ digitChar d ≠ '+' ∧ digitChar d ≠ '"' := by
  interval_cases d <;> decide

theorem formatUint_acc (fuel n : Nat) (acc : List Char) :
    formatUint fuel n acc = formatUint fuel n [] ++ acc := by
  induction fuel generalizing n acc with
  | zero => simp [formatUint]
  | succ fuel ih =>
    simp only [formatUint]
    split
    · simp
    · rw [ih, ih _ [digitChar (n % 10)]]; simp

theorem formatUint_head (fuel n : Nat) (h : n < fuel) :
    ∃ d tl, d < 10 ∧ formatUint fuel n [] = digitChar d :: tl := by
  induction fuel generalizing n with
  | zero => omega
  | succ fuel ih =>
    simp only [formatUint]
    split
    · exact ⟨n, [], by assumption, rfl⟩
    · obtain ⟨d, tl, hd, htl⟩ := ih (n / 10) (by omega)
      rw [formatUint_acc, htl]
      exact ⟨d, tl ++ [digitChar (n % 10)], hd, rfl⟩

theorem parseUint_formatUint (fuel n : Nat) (rest : List Char) (h : n < fuel)
    (hn : n < 2 ^ 64) :
    parseUint (formatUint fuel n [] ++ rest) 0 = parseUint rest n := by
  induction fuel generalizing n rest with
  | zero => omega
  | succ fuel ih =>
    simp only [formatUint]
    split
    · rename_i hlt
      show parseUint (digitChar n :: rest) 0 = parseUint rest n
      rw [parseUint, digitVal_digitChar n hlt]
      simp only [Nat.zero_mul, Nat.zero_add]
      exact if_neg (by omega)
    · rw [formatUint_acc, List.append_assoc, ih (n / 10) _ (by omega) (by omega)]
      have hval : n / 10 * 10 + n % 10 = n := by omega
      show parseUint (digitChar (n % 10) :: rest) (n / 10) = parseUint rest n
      rw [parseUint, digitVal_digitChar (n % 10) (Nat.mod_lt _ (by decide))]
      simp only [hval]
      exact if_neg (by omega)

theorem Atoi_Itoa (n : Int) (hlo : -2 ^ 63 ≤ n) (hhi : n < 2 ^ 63) : Atoi (Itoa n) = .ok n := by
  obtain ⟨d, tl, hd, htl⟩ := formatUint_head (n.natAbs + 1) n.natAbs (by omega)
  have hparse : parseUint (digitChar d :: tl) 0 = .ok n.natAbs := by
    have h := parseUint_formatUint (n.natAbs + 1) n.natAbs [] (by omega) (by omega)
    rw [List.append_nil, htl] at h
    rw [h, parseUint]
  obtain ⟨hminus, hplus, -⟩ := digitChar_ne_sign d hd
  by_cases hneg : n < 0
  · have hrange : ¬ 2 ^ 63 < n.natAbs := by omega
    have hval : -(n.natAbs : Int) = n := by omega
    have hdata : (Itoa n).data = '-' :: digitChar d :: tl := by
      simp only [Itoa, if_pos hneg, htl]
    unfold Atoi
    rw [hdata]
    simp only [decide_True, true_or, if_true, hparse, if_neg hrange, hval]
  · have hrange : ¬ 2 ^ 63 ≤ n.natAbs := by omega
    have hval : (n.natAbs : Int) = n := by omega
    have hdata : (Itoa n).data = digitChar d :: tl := by
      simp only [Itoa, if_neg hneg, htl]
    unfold Atoi
    rw [hdata]
    simp only [hminus, hplus, decide_False, or_self, if_false, hparse, if_neg hrange, hval,
      Bool.false_eq_true]

theorem trim_Itoa (n : Int) : MayTrimSurroundingQuotes (Itoa n) = Itoa n := by
  obtain ⟨d, tl, hd, htl⟩ := formatUint_head (n.natAbs + 1) n.natAbs (by omega)
  obtain ⟨-, -, hquote⟩ := digitChar_ne_sign d hd
  by_cases hneg : n < 0
  · simp [MayTrimSurroundingQuotes, Itoa, hneg]
  · simp [MayTrimSurroundingQuotes, Itoa, hneg, htl, hquote]

theorem trim_quoted (t : String) : MayTrimSurroundingQuotes ("\"" ++ t ++ "\"") = t := by
  have hdata : ("\"" ++ t ++ "\"").data = '"' :: (t.data ++ ['"']) := by
    simp [String.data_append]
  simp [MayTrimSurroundingQuotes, hdata]

theorem parseUint_digits (ds : List Char) (m un : Nat) (h : parseUint ds m = .ok un) :
    ds.all (fun ch => (digitVal ch).isSome) = true := by
  induction ds generalizing m with
  | nil => rfl
  | cons c cs ih =>
    rw [parseUint] at h
    cases hc : digitVal c with
    | none => simp [hc] at h
    | some v =>
      simp only [hc] at h
      split at h
      · exact Except.noConfusion h
      · simp [hc, ih _ h]

theorem Atoi_isIntegerText (s : String) (n : Int) (h : Atoi s = .ok n) :
    isIntegerText s = true := by
  unfold Atoi at h
  unfold isIntegerText
  cases hdata : s.data with
  | nil => rw [hdata] at h; exact Except.noConfusion h
  | cons c cs =>
    rw [hdata] at h
    dsimp only at h ⊢
    cases hds : (if c = '-' ∨ c = '+' then cs else c :: cs) with
    | nil => rw [hds] at h; exact Except.noConfusion h
    | cons c' cs' =>
      rw [hds] at h
      dsimp only at h
      cases hun : parseUint (c' :: cs') 0 with
      | error e => rw [hun] at h; exact Except.noConfusion h
      | ok un => simpa using parseUint_digits _ _ _ hun

/-! ## Lemmas on the network -/

theorem after_nil (w : Net σ) (client : ApiClient σ) : w.after client [] = w := by
  cases w; simp [Net.after, remoteAfter]

theorem execute_fst (w : Net σ) (client : ApiClient σ) (req : Request) :
    (w.execute client req).1 = w.after client [req] := rfl

theorem execute_snd (w : Net σ) (client : ApiClient σ) (req : Request) :
    (w.execute client req).2 = (client.HttpClient w.remote req).2 := rfl

theorem after_cons (w : Net σ) (client : ApiClient σ) (req : Request) (reqs : List Request) :
    w.after client (req :: reqs) = (w.after client [req]).after client reqs := by
  simp [Net.after, remoteAfter]

theorem after_append (w : Net σ) (client : ApiClient σ) (xs ys : List Request) :
    w.after client (xs ++ ys) = (w.after client xs).after client ys := by
  induction xs generalizing w with
  | nil => simp [after_nil]
  | cons x xs ih => rw [List.cons_append, after_cons, ih, ← after_cons]

theorem after_sent (w : Net σ) (client : ApiClient σ) (reqs : List Request) :
    (w.after client reqs).sent = w.sent ++ reqs := rfl

theorem failed_eq_false {o : Reply} (h : failed o = false) :
    ∃ resp, o = .ok resp ∧ ¬ resp.StatusCode ≥ 400 := by
  cases o with
  | error e => simp [failed] at h
  | ok resp => exact ⟨resp, rfl, by simpa [failed] using h⟩

/-! ## The two loops -/

theorem addItemsLoop_pass (cart : Cart σ) (todo done : List Item) (w : Net σ)
    (h : ∀ o ∈ replies cart.ApiClient w.remote (todo.map cart.itemPost), failed o = false) :
    cart.addItemsLoop done todo w
      = (w.after cart.ApiClient (todo.map cart.itemPost), done ++ todo, none) := by
  induction todo generalizing done w with
  | nil => simp [Cart.addItemsLoop, after_nil]
  | cons elem todo ih =>
    simp only [List.map_cons, replies, List.mem_cons, forall_eq_or_imp] at h
    obtain ⟨resp, hresp, hcode⟩ := failed_eq_false h.1
    have hreq : (⟨.POST, cart.Route ++ cartItems,
        .CartItem { elem with QuoteID := cart.QuoteID }⟩ : Request) = cart.itemPost elem := rfl
    rw [Cart.addItemsLoop]
    simp only [hreq, execute_snd, execute_fst, hresp, if_neg hcode]
    rw [ih (done ++ [elem]) (w.after cart.ApiClient [cart.itemPost elem]) h.2,
      List.map_cons, after_cons w cart.ApiClient (cart.itemPost elem) (todo.map cart.itemPost)]
    simp

theorem addItemsLoop_fail (cart : Cart σ) (todo done : List Item) (w : Net σ)
    (k : Nat) (o : Reply)
    (hk : (replies cart.ApiClient w.remote (todo.map cart.itemPost))[k]? = some o)
    (hpre : ∀ o' ∈ (replies cart.ApiClient w.remote (todo.map cart.itemPost)).take k,
      failed o' = false)
    (ho : failed o = true) :
    (cart.addItemsLoop done todo w).1
        = w.after cart.ApiClient ((todo.map cart.itemPost).take (k + 1)) ∧
      (cart.addItemsLoop done todo w).2.1 = done ++ todo ∧
      (cart.addItemsLoop done todo w).2.2 ≠ none := by
  induction todo generalizing done w k with
  | nil => simp [replies] at hk
  | cons elem todo ih =>
    have hreq : (⟨.POST, cart.Route ++ cartItems,
        .CartItem { elem with QuoteID := cart.QuoteID }⟩ : Request) = cart.itemPost elem := rfl
    cases k with
    | zero =>
      simp only [List.map_cons, replies, List.getElem?_cons_zero, Option.some.injEq] at hk
      rw [Cart.addItemsLoop]
      simp only [hreq, execute_snd, execute_fst, hk]
      cases o with
      | error e => simp
      | ok resp =>
        have hcode : resp.StatusCode ≥ 400 := by simpa [failed] using ho
        simp [if_pos hcode]
    | succ k =>
      simp only [List.map_cons, replies, List.getElem?_cons_succ] at hk
      simp only [List.map_cons, replies, List.take_succ_cons, List.mem_cons,
        forall_eq_or_imp] at hpre
      obtain ⟨resp, hresp, hcode⟩ := failed_eq_false hpre.1
      rw [Cart.addItemsLoop]
      simp only [hreq, execute_snd, execute_fst, hresp, if_neg hcode]
      obtain ⟨h1, h2, h3⟩ :=
        ih (done ++ [elem]) (w.after cart.ApiClient [cart.itemPost elem]) k hk hpre.2
      refine ⟨?_, ?_, h3⟩
      · rw [h1, List.map_cons, List.take_succ_cons,
          after_cons w cart.ApiClient (cart.itemPost elem) ((todo.map cart.itemPost).take (k + 1))]
      · simp [h2]

theorem addItemsLoop_slice (cart : Cart σ) (todo done : List Item) (w : Net σ) :
    (cart.addItemsLoop done todo w).2.1 = done ++ todo := by
  induction todo generalizing done w with
  | nil => simp [Cart.addItemsLoop]
  | cons elem todo ih =>
    rw [Cart.addItemsLoop]
    split
    · rfl
    · split
      · rfl
      · rw [ih]; simp

/-! ## Refreshing the cart -/

theorem GetDetails_net (cart : Cart σ) (w : Net σ) :
    (cart.GetDetails w).net = w.after cart.ApiClient [cart.getRequest] := by
  unfold Cart.GetDetails
  dsimp only
  split
  · rfl
  · split <;> rfl

theorem GetDetails_cart (cart : Cart σ) (w : Net σ) : (cart.GetDetails w).cart = cart := by
  unfold Cart.GetDetails
  dsimp only
  split
  · rfl
  · split <;> rfl

theorem UpdateSelf_net (cart : Cart σ) (w : Net σ) :
    (cart.UpdateSelf w).net = w.after cart.ApiClient [cart.getRequest] := by
  unfold Cart.UpdateSelf
  dsimp only
  split <;> exact GetDetails_net cart w

theorem UpdateSelf_ok (cart : Cart σ) (w : Net σ) (d : DetailedCart)
    (h : (cart.GetDetails w).ret = .ok d) :
    (cart.UpdateSelf w).ret = none ∧ (cart.UpdateSelf w).cart = { cart with Detailed := d } := by
  unfold Cart.UpdateSelf
  simp [h, GetDetails_cart]

theorem UpdateSelf_error (cart : Cart σ) (w : Net σ) (e : Error)
    (h : (cart.GetDetails w).ret = .error e) :
    (cart.UpdateSelf w).ret = some (.updateSelf e) ∧ (cart.UpdateSelf w).cart = cart := by
  unfold Cart.UpdateSelf
  simp [h, GetDetails_cart]

/-! ## `AddItems` and `AddShippingInformation` -/

theorem AddItems_pass (cart : Cart σ) (items : List Item) (w : Net σ)
    (h : ∀ o ∈ replies cart.ApiClient w.remote (items.map cart.itemPost), failed o = false) :
    (cart.AddItems items w).net
        = (cart.UpdateSelf (w.after cart.ApiClient (items.map cart.itemPost))).net ∧
      (cart.AddItems items w).cart
        = (cart.UpdateSelf (w.after cart.ApiClient (items.map cart.itemPost))).cart ∧
      (cart.AddItems items w).ret
        = (cart.UpdateSelf (w.after cart.ApiClient (items.map cart.itemPost))).ret := by
  unfold Cart.AddItems
  rw [addItemsLoop_pass cart items [] w h]
  dsimp only
  split <;> simp_all

theorem AddItems_fail (cart : Cart σ) (items : List Item) (w : Net σ) (k : Nat) (o : Reply)
    (hk : (replies cart.ApiClient w.remote (items.map cart.itemPost))[k]? = some o)
    (hpre : ∀ o' ∈ (replies cart.ApiClient w.remote (items.map cart.itemPost)).take k,
      failed o' = false)
    (ho : failed o = true) :
    (cart.AddItems items w).net
        = w.after cart.ApiClient ((items.map cart.itemPost).take (k + 1)) ∧
      (cart.AddItems items w).cart = cart ∧ (cart.AddItems items w).ret ≠ none := by
  obtain ⟨h1, -, h3⟩ := addItemsLoop_fail cart items [] w k o hk hpre ho
  unfold Cart.AddItems
  rcases hloop : cart.addItemsLoop [] items w with ⟨w1, slice, e⟩
  rw [hloop] at h1 h3
  cases e with
  | none => exact absurd rfl h3
  | some err => exact ⟨h1, rfl, by simp⟩

theorem replies_length (client : ApiClient σ) (s : σ) (reqs : List Request) :
    (replies client s reqs).length = reqs.length := by
  induction reqs generalizing s with
  | nil => rfl
  | cons req reqs ih => simp [replies, ih]

theorem AddShippingInformation_pass (cart : Cart σ) (addrInfo : AddressInformation)
    (w : Net σ)
    (h : failed (cart.ApiClient.HttpClient w.remote (cart.shippingPost addrInfo)).2 = false) :
    (cart.AddShippingInformation addrInfo w).net
        = (cart.UpdateSelf (w.after cart.ApiClient [cart.shippingPost addrInfo])).net ∧
      (cart.AddShippingInformation addrInfo w).cart
        = (cart.UpdateSelf (w.after cart.ApiClient [cart.shippingPost addrInfo])).cart ∧
      (cart.AddShippingInformation addrInfo w).ret
        = (cart.UpdateSelf (w.after cart.ApiClient [cart.shippingPost addrInfo])).ret := by
  obtain ⟨resp, hresp, hcode⟩ := failed_eq_false h
  have hreq : (⟨.POST, cart.Route ++ cartShippingInformation,
      .AddressInformation addrInfo⟩ : Request) = cart.shippingPost addrInfo := rfl
  unfold Cart.AddShippingInformation
  simp only [hreq, execute_snd, execute_fst, hresp, if_neg hcode]
  split <;> simp_all

theorem AddShippingInformation_fail (cart : Cart σ) (addrInfo : AddressInformation)
    (w : Net σ)
    (h : failed (cart.ApiClient.HttpClient w.remote (cart.shippingPost addrInfo)).2 = true) :
    (cart.AddShippingInformation addrInfo w).net
        = w.after cart.ApiClient [cart.shippingPost addrInfo] ∧
      (cart.AddShippingInformation addrInfo w).cart = cart ∧
      (cart.AddShippingInformation addrInfo w).ret ≠ none := by
  have hreq : (⟨.POST, cart.Route ++ cartShippingInformation,
      .AddressInformation addrInfo⟩ : Request) = cart.shippingPost addrInfo := rfl
  unfold Cart.AddShippingInformation
  simp only [hreq, execute_snd, execute_fst]
  cases hr : (cart.ApiClient.HttpClient w.remote (cart.shippingPost addrInfo)).2 with
  | error e => simp
  | ok resp =>
    have hcode : resp.StatusCode ≥ 400 := by simpa [failed, hr] using h
    simp [if_pos hcode]

/-! ## Claims on `AddItems` and `AddShippingInformation` -/

/-- C1: `AddItems` issues its POSTs to `<route>/items` in input order, one per
item, each carrying the item with the `QuoteID` of the cart.  When the POST at
position `k` (counted from zero) is the first to fail, exactly the first
`k + 1` POSTs have been issued, nothing else, and an error is returned; when
no POST fails, the POSTs of all the items are issued, followed by the one GET
of the refresh. -/
theorem AddItems_posts_in_order (cart : Cart σ) (items : List Item) (w : Net σ) :
    (∀ k o, (replies cart.ApiClient w.remote (items.map cart.itemPost))[k]? = some o →
      (∀ o' ∈ (replies cart.ApiClient w.remote (items.map cart.itemPost)).take k,
        failed o' = false) →
      failed o = true →
      (cart.AddItems items w).net.sent = w.sent ++ (items.map cart.itemPost).take (k + 1) ∧
        ((items.map cart.itemPost).take (k + 1)).length = k + 1 ∧
        (cart.AddItems items w).ret ≠ none) ∧
    ((∀ o ∈ replies cart.ApiClient w.remote (items.map cart.itemPost), failed o = false) →
      (cart.AddItems items w).net.sent
          = w.sent ++ items.map cart.itemPost ++ [cart.getRequest] ∧
        (items.map cart.itemPost).length = items.length) := by
  refine ⟨?_, ?_⟩
  · intro k o hk hpre ho
    obtain ⟨h1, -, h3⟩ := AddItems_fail cart items w k o hk hpre ho
    refine ⟨by rw [h1, after_sent], ?_, h3⟩
    have hlt : k < (replies cart.ApiClient w.remote (items.map cart.itemPost)).length := by
      by_contra hge
      rw [List.getElem?_eq_none (Nat.le_of_not_lt hge)] at hk
      exact Option.noConfusion hk
    rw [replies_length] at hlt
    rw [List.length_take]
    omega
  · intro h
    obtain ⟨h1, -, -⟩ := AddItems_pass cart items w h
    refine ⟨?_, by simp⟩
    rw [h1, UpdateSelf_net, after_sent, after_sent]

/-- C1, on a remote system that accepts the first POST and answers 500 to the
second: two POSTs are issued, for the first two items in order, each with the
`QuoteID` of the cart, and the third item is never sent. -/
theorem AddItems_posts_in_order_witness :
    (demoCart.AddItems demoItems
        ⟨[plain 200 "", plain 500 "no", plain 200 "", snapshot demoSnapshot], []⟩).net.sent
      = [⟨.POST, "/carts/7/items", .CartItem ⟨1, "sku-a", 2, "q7"⟩⟩,
         ⟨.POST, "/carts/7/items", .CartItem ⟨2, "sku-b", 1, "q7"⟩⟩] ∧
    (demoCart.AddItems demoItems
        ⟨[plain 200 "", plain 500 "no", plain 200 "", snapshot demoSnapshot], []⟩).ret
      ≠ none :=
  have h := (AddItems_posts_in_order demoCart demoItems
    ⟨[plain 200 "", plain 500 "no", plain 200 "", snapshot demoSnapshot], []⟩).1
    1 (plain 500 "no") (by decide) (by decide) (by decide)
  ⟨h.1, h.2.2⟩

/-- C8: `AddItems` and `AddShippingInformation` refresh the cart on success.
When every POST is accepted (also for no item at all), the requests issued
are the POSTs followed by exactly one GET of the cart route, the outcome is
the outcome of `UpdateSelf` run after the last POST, a successful GET leaves
its snapshot in `Detailed`, and a failed GET makes the operation fail. -/
theorem mutators_refresh_on_success (cart : Cart σ) (w : Net σ) :
    (∀ items : List Item,
      (∀ o ∈ replies cart.ApiClient w.remote (items.map cart.itemPost), failed o = false) →
      (cart.AddItems items w).net.sent
          = w.sent ++ items.map cart.itemPost ++ [cart.getRequest] ∧
        (cart.AddItems items w).ret
          = (cart.UpdateSelf (w.after cart.ApiClient (items.map cart.itemPost))).ret ∧
        (cart.AddItems items w).cart
          = (cart.UpdateSelf (w.after cart.ApiClient (items.map cart.itemPost))).cart ∧
        (∀ d, (cart.GetDetails (w.after cart.ApiClient (items.map cart.itemPost))).ret = .ok d →
          (cart.AddItems items w).ret = none ∧ (cart.AddItems items w).cart.Detailed = d) ∧
        (∀ e, (cart.GetDetails (w.after cart.ApiClient (items.map cart.itemPost))).ret
            = .error e →
          (cart.AddItems items w).ret = some (.updateSelf e))) ∧
    (∀ addrInfo : AddressInformation,
      failed (cart.ApiClient.HttpClient w.remote (cart.shippingPost addrInfo)).2 = false →
      (cart.AddShippingInformation addrInfo w).net.sent
          = w.sent ++ [cart.shippingPost addrInfo] ++ [cart.getRequest] ∧
        (cart.AddShippingInformation addrInfo w).ret
          = (cart.UpdateSelf (w.after cart.ApiClient [cart.shippingPost addrInfo])).ret ∧
        (cart.AddShippingInformation addrInfo w).cart
          = (cart.UpdateSelf (w.after cart.ApiClient [cart.shippingPost addrInfo])).cart ∧
        (∀ d, (cart.GetDetails (w.after cart.ApiClient [cart.shippingPost addrInfo])).ret
            = .ok d →
          (cart.AddShippingInformation addrInfo w).ret = none ∧
            (cart.AddShippingInformation addrInfo w).cart.Detailed = d) ∧
        (∀ e, (cart.GetDetails (w.after cart.ApiClient [cart.shippingPost addrInfo])).ret
            = .error e →
          (cart.AddShippingInformation addrInfo w).ret = some (.updateSelf e))) := by
  refine ⟨?_, ?_⟩
  · intro items h
    obtain ⟨h1, h2, h3⟩ := AddItems_pass cart items w h
    refine ⟨by rw [h1, UpdateSelf_net, after_sent, after_sent], h3, h2, ?_, ?_⟩
    · intro d hd
      obtain ⟨u1, u2⟩ := UpdateSelf_ok cart _ d hd
      exact ⟨h3.trans u1, by rw [h2, u2]⟩
    · intro e he
      exact h3.trans (UpdateSelf_error cart _ e he).1
  · intro addrInfo h
    obtain ⟨h1, h2, h3⟩ := AddShippingInformation_pass cart addrInfo w h
    refine ⟨by rw [h1, UpdateSelf_net, after_sent, after_sent], h3, h2, ?_, ?_⟩
    · intro d hd
      obtain ⟨u1, u2⟩ := UpdateSelf_ok cart _ d hd
      exact ⟨h3.trans u1, by rw [h2, u2]⟩
    · intro e he
      exact h3.trans (UpdateSelf_error cart _ e he).1

/-- C8, on the scripted remote system: three accepted POSTs are followed by
one GET whose snapshot becomes `Detailed`; with no item the GET is the only
request; an accepted shipping POST followed by a GET that answers 503 makes
`AddShippingInformation` fail. -/
theorem mutators_refresh_on_success_witness :
    ((demoCart.AddItems demoItems
          ⟨[plain 200 "", plain 201 "", plain 200 "", snapshot demoSnapshot], []⟩).net.sent
        = [] ++ demoItems.map demoCart.itemPost ++ [⟨.GET, "/carts/7", .empty⟩] ∧
      (demoCart.AddItems demoItems
          ⟨[plain 200 "", plain 201 "", plain 200 "", snapshot demoSnapshot], []⟩).ret
        = none ∧
      (demoCart.AddItems demoItems
          ⟨[plain 200 "", plain 201 "", plain 200 "", snapshot demoSnapshot], []⟩).cart.Detailed
        = demoSnapshot) ∧
    (demoCart.AddItems [] ⟨[snapshot demoSnapshot], []⟩).net.sent
        = [] ++ [] ++ [⟨.GET, "/carts/7", .empty⟩] ∧
    (demoCart.AddShippingInformation demoShipping ⟨[plain 200 "", plain 503 "down"], []⟩).ret
        = some (.updateSelf (.statusCode 503 "down")) :=
  have h3 := (mutators_refresh_on_success demoCart
    ⟨[plain 200 "", plain 201 "", plain 200 "", snapshot demoSnapshot], []⟩).1
    demoItems (by decide)
  have h0 := (mutators_refresh_on_success demoCart ⟨[snapshot demoSnapshot], []⟩).1
    [] (by decide)
  have hs := (mutators_refresh_on_success demoCart ⟨[plain 200 "", plain 503 "down"], []⟩).2
    demoShipping (by decide)
  ⟨⟨h3.1, h3.2.2.2.1 demoSnapshot (by decide)⟩, h0.1,
    hs.2.2.2.2 (.statusCode 503 "down") (by decide)⟩

/-- C10: a failed POST of `AddItems` or of `AddShippingInformation` ends the
call before the refresh: the requests issued are POSTs only, no GET of the
cart route among them, and the receiver (`Detailed`, `Route`, `QuoteID`,
`ApiClient`) is what it was before the call.  In every case the slice of the
caller holds the items it held before the call, the `QuoteID` being written
to the copy in the loop variable. -/
theorem failed_post_leaves_cart (cart : Cart σ) (w : Net σ) :
    (∀ (items : List Item) (k : Nat) (o : Reply),
      (replies cart.ApiClient w.remote (items.map cart.itemPost))[k]? = some o →
      (∀ o' ∈ (replies cart.ApiClient w.remote (items.map cart.itemPost)).take k,
        failed o' = false) →
      failed o = true →
      (cart.AddItems items w).cart = cart ∧
        (cart.AddItems items w).net.sent
          = w.sent ++ (items.map cart.itemPost).take (k + 1) ∧
        (∀ req ∈ (items.map cart.itemPost).take (k + 1), req.method = .POST)) ∧
    (∀ addrInfo : AddressInformation,
      failed (cart.ApiClient.HttpClient w.remote (cart.shippingPost addrInfo)).2 = true →
      (cart.AddShippingInformation addrInfo w).cart = cart ∧
        (cart.AddShippingInformation addrInfo w).net.sent
          = w.sent ++ [cart.shippingPost addrInfo] ∧
        (cart.shippingPost addrInfo).method = .POST) ∧
    (∀ items : List Item, (cart.AddItems items w).items = items) := by
  refine ⟨?_, ?_, ?_⟩
  · intro items k o hk hpre ho
    obtain ⟨h1, h2, -⟩ := AddItems_fail cart items w k o hk hpre ho
    refine ⟨h2, by rw [h1, after_sent], ?_⟩
    intro req hreq
    obtain ⟨elem, -, rfl⟩ := List.mem_map.mp (List.mem_of_mem_take hreq)
    rfl
  · intro addrInfo h
    obtain ⟨h1, h2, -⟩ := AddShippingInformation_fail cart addrInfo w h
    exact ⟨h2, by rw [h1, after_sent], rfl⟩
  · intro items
    have h := addItemsLoop_slice cart items [] w
    unfold Cart.AddItems
    rcases hloop : cart.addItemsLoop [] items w with ⟨w1, slice, e⟩
    rw [hloop] at h
    cases e with
    | none => dsimp only; split <;> simpa using h
    | some err => simpa using h

/-- C10, on the scripted remote system: when the second POST meets a broken
connection the cart keeps the snapshot it had and only the two POSTs are in
the log; a rejected shipping POST leaves the cart alone as well; and the
slice still has the stale `QuoteID` of its second element after a full run. -/
theorem failed_post_leaves_cart_witness :
    ((({ demoCart with Detailed := demoSnapshot } : Cart (List Reply)).AddItems demoItems
          ⟨[plain 200 ""], []⟩).cart.Detailed = demoSnapshot ∧
      (({ demoCart with Detailed := demoSnapshot } : Cart (List Reply)).AddItems demoItems
          ⟨[plain 200 ""], []⟩).net.sent
        = [⟨.POST, "/carts/7/items", .CartItem ⟨1, "sku-a", 2, "q7"⟩⟩,
           ⟨.POST, "/carts/7/items", .CartItem ⟨2, "sku-b", 1, "q7"⟩⟩]) ∧
    ((demoCart.AddShippingInformation demoShipping
          ⟨[plain 404 "", snapshot demoSnapshot], []⟩).cart.Detailed = default ∧
      (demoCart.AddShippingInformation demoShipping
          ⟨[plain 404 "", snapshot demoSnapshot], []⟩).net.sent
        = [⟨.POST, "/carts/7/shipping-information", .AddressInformation demoShipping⟩]) ∧
    (demoCart.AddItems demoItems
        ⟨[plain 200 "", plain 200 "", plain 200 "", snapshot demoSnapshot], []⟩).items
      = demoItems :=
  have ha := (failed_post_leaves_cart ({ demoCart with Detailed := demoSnapshot })
    ⟨[plain 200 ""], []⟩).1 demoItems 1 (.error "EOF") (by decide) (by decide) (by decide)
  have hs := (failed_post_leaves_cart demoCart ⟨[plain 404 "", snapshot demoSnapshot], []⟩).2.1
    demoShipping (by decide)
  ⟨⟨congrArg Cart.Detailed ha.1, ha.2.1⟩, ⟨congrArg Cart.Detailed hs.1, hs.2.1⟩,
    (failed_post_leaves_cart demoCart
      ⟨[plain 200 "", plain 200 "", plain 200 "", snapshot demoSnapshot], []⟩).2.2 demoItems⟩

/-! ## The single round-trip methods -/

theorem GetDetails_reply (cart : Cart σ) (w : Net σ) (resp : Response)
    (hreply : (cart.ApiClient.HttpClient w.remote cart.getRequest).2 = .ok resp) :
    (cart.GetDetails w).ret
      = if resp.StatusCode ≥ 400 then .error (.statusCode resp.StatusCode resp.String)
        else .ok resp.detailedCart := by
  have hreq : (⟨.GET, cart.Route, .empty⟩ : Request) = cart.getRequest := rfl
  unfold Cart.GetDetails
  simp only [hreq, execute_snd, hreply]
  split <;> rfl

theorem GetDetails_stale (cart : Cart σ) (w : Net σ) (stale : DetailedCart) :
    (({ cart with Detailed := stale } : Cart σ).GetDetails w).ret = (cart.GetDetails w).ret := by
  unfold Cart.GetDetails
  dsimp only
  split
  · rfl
  · split <;> rfl

theorem EstimateShippingCarrier_reply (cart : Cart σ) (addrInfo : Address) (w : Net σ)
    (resp : Response)
    (hreply : (cart.ApiClient.HttpClient w.remote (cart.estimatePost addrInfo)).2 = .ok resp) :
    (cart.EstimateShippingCarrier addrInfo w).ret
      = if resp.StatusCode ≥ 400 then .error (.statusCode resp.StatusCode resp.String)
        else if resp.carriers.length = 0 then .error (.noShipping resp.String)
        else .ok resp.carriers := by
  have hreq : (⟨.POST, cart.Route ++ cartShippingCosts, .Address addrInfo⟩ : Request)
      = cart.estimatePost addrInfo := rfl
  unfold Cart.EstimateShippingCarrier
  simp only [hreq, execute_snd, hreply]
  split
  · rfl
  · split <;> rfl

theorem EstimatePaymentMethods_reply (cart : Cart σ) (w : Net σ) (resp : Response)
    (hreply : (cart.ApiClient.HttpClient w.remote cart.paymentGet).2 = .ok resp) :
    (cart.EstimatePaymentMethods w).ret
      = if resp.StatusCode ≥ 400 then .error (.statusCode resp.StatusCode resp.String)
        else if resp.paymentMethods.length = 0 then .error (.noPayment resp.String)
        else .ok resp.paymentMethods := by
  have hreq : (⟨.GET, cart.Route ++ cartPaymentMethods, .empty⟩ : Request)
      = cart.paymentGet := rfl
  unfold Cart.EstimatePaymentMethods
  simp only [hreq, execute_snd, hreply]
  split
  · rfl
  · split <;> rfl

theorem EstimateShippingCarrier_ok (cart : Cart σ) (addrInfo : Address) (w : Net σ)
    (cs : List Carrier) (h : (cart.EstimateShippingCarrier addrInfo w).ret = .ok cs) :
    cs ≠ [] := by
  unfold Cart.EstimateShippingCarrier at h
  dsimp only at h
  split at h
  · exact Except.noConfusion h
  · split at h
    · exact Except.noConfusion h
    · split at h
      · exact Except.noConfusion h
      · rename_i resp _ _ hlen
        have hcs : resp.carriers = cs := Except.ok.inj h
        rw [← hcs]
        exact fun hnil => hlen (by rw [hnil]; rfl)

theorem EstimatePaymentMethods_ok (cart : Cart σ) (w : Net σ)
    (ps : List PaymentMethod) (h : (cart.EstimatePaymentMethods w).ret = .ok ps) :
    ps ≠ [] := by
  unfold Cart.EstimatePaymentMethods at h
  dsimp only at h
  split at h
  · exact Except.noConfusion h
  · split at h
    · exact Except.noConfusion h
    · split at h
      · exact Except.noConfusion h
      · rename_i resp _ _ hlen
        have hps : resp.paymentMethods = ps := Except.ok.inj h
        rw [← hps]
        exact fun hnil => hlen (by rw [hnil]; rfl)

theorem CreateOrder_rejected (order : String) (cart : Cart σ) (paymentMethod : PaymentMethod)
    (w : Net σ) (resp : Response)
    (hreply : (cart.ApiClient.HttpClient w.remote (cart.orderPut paymentMethod)).2 = .ok resp)
    (hstatus : resp.StatusCode ≥ 400) :
    (cart.CreateOrder order paymentMethod w).ret
      = .error (.statusCode resp.StatusCode resp.String) := by
  have hreq : (⟨.PUT, cart.Route ++ cartPlaceOrder,
      .PaymentMethod ⟨paymentMethod.Code⟩⟩ : Request) = cart.orderPut paymentMethod := rfl
  unfold Cart.CreateOrder
  simp only [hreq, execute_snd, hreply, if_pos hstatus]

theorem DeleteItem_net (cart : Cart σ) (itemID : Int) (w : Net σ) :
    (cart.DeleteItem itemID w).net = w.after cart.ApiClient [cart.itemDelete itemID] := by
  unfold Cart.DeleteItem
  dsimp only
  split
  · rfl
  · split <;> rfl

theorem DeleteItem_cart (cart : Cart σ) (itemID : Int) (w : Net σ) :
    (cart.DeleteItem itemID w).cart = cart := by
  unfold Cart.DeleteItem
  dsimp only
  split
  · rfl
  · split <;> rfl

theorem DeleteItem_reply (cart : Cart σ) (itemID : Int) (w : Net σ) (resp : Response)
    (hreply : (cart.ApiClient.HttpClient w.remote (cart.itemDelete itemID)).2 = .ok resp) :
    (cart.DeleteItem itemID w).ret
      = if resp.StatusCode ≥ 400 then some (.statusCode resp.StatusCode resp.String)
        else none := by
  have hreq : (⟨.DELETE, cart.Route ++ cartItems ++ "/" ++ Itoa itemID, .empty⟩ : Request)
      = cart.itemDelete itemID := rfl
  unfold Cart.DeleteItem
  simp only [hreq, execute_snd, hreply]
  split <;> rfl

theorem DeleteItem_failed (cart : Cart σ) (itemID : Int) (w : Net σ) :
    (cart.DeleteItem itemID w).ret = none
      ↔ failed (cart.ApiClient.HttpClient w.remote (cart.itemDelete itemID)).2 = false := by
  cases hreply : (cart.ApiClient.HttpClient w.remote (cart.itemDelete itemID)).2 with
  | error err =>
    have hreq : (⟨.DELETE, cart.Route ++ cartItems ++ "/" ++ Itoa itemID, .empty⟩ :
        Request) = cart.itemDelete itemID := rfl
    unfold Cart.DeleteItem
    simp [hreq, execute_snd, hreply, failed]
  | ok resp =>
    rw [DeleteItem_reply cart itemID w resp hreply]
    by_cases hcode : resp.StatusCode ≥ 400 <;> simp [failed, hcode]

theorem DeleteItem_stale (cart : Cart σ) (itemID : Int) (w : Net σ) (stale : DetailedCart) :
    (({ cart with Detailed := stale } : Cart σ).DeleteItem itemID w).ret
      = (cart.DeleteItem itemID w).ret := by
  unfold Cart.DeleteItem
  dsimp only
  split
  · rfl
  · split <;> rfl

theorem first_failure (outs : List Reply) :
    (∀ o ∈ outs, failed o = false) ∨
      ∃ k o, outs[k]? = some o ∧ (∀ o' ∈ outs.take k, failed o' = false) ∧
        failed o = true := by
  induction outs with
  | nil => left; simp
  | cons out outs ih =>
    cases hout : failed out with
    | true => exact Or.inr ⟨0, out, by simp, by simp, hout⟩
    | false =>
      rcases ih with hall | ⟨k, o, hk, hpre, ho⟩
      · left
        intro o ho
        rcases List.mem_cons.mp ho with rfl | hmem
        · exact hout
        · exact hall o hmem
      · refine Or.inr ⟨k + 1, o, by simpa using hk, ?_, ho⟩
        intro o' ho'
        rw [List.take_succ_cons] at ho'
        rcases List.mem_cons.mp ho' with rfl | hmem
        · exact hout
        · exact hpre o' hmem

/-! ## The loop of `DeleteAllItems` -/

theorem deleteLoop_pass (cart : Cart σ) (items : List Item) (w : Net σ)
    (h : ∀ o ∈ replies cart.ApiClient w.remote
        (items.map fun elem => cart.itemDelete elem.ItemID), failed o = false) :
    cart.deleteLoop items w
      = ⟨w.after cart.ApiClient (items.map fun elem => cart.itemDelete elem.ItemID),
          cart, none⟩ := by
  induction items generalizing w with
  | nil => simp [Cart.deleteLoop, after_nil]
  | cons elem items ih =>
    simp only [List.map_cons, replies, List.mem_cons, forall_eq_or_imp] at h
    have hnone := (DeleteItem_failed cart elem.ItemID w).mpr h.1
    rw [Cart.deleteLoop]
    simp only [hnone, DeleteItem_cart, DeleteItem_net]
    rw [ih (w.after cart.ApiClient [cart.itemDelete elem.ItemID]) h.2, List.map_cons,
      after_cons w cart.ApiClient (cart.itemDelete elem.ItemID)
        (items.map fun elem => cart.itemDelete elem.ItemID)]

theorem deleteLoop_fail (cart : Cart σ) (items : List Item) (w : Net σ)
    (k : Nat) (o : Reply) (elem : Item)
    (hk : (replies cart.ApiClient w.remote
        (items.map fun elem => cart.itemDelete elem.ItemID))[k]? = some o)
    (helem : items[k]? = some elem)
    (hpre : ∀ o' ∈ (replies cart.ApiClient w.remote
        (items.map fun elem => cart.itemDelete elem.ItemID)).take k, failed o' = false)
    (ho : failed o = true) :
    (cart.deleteLoop items w).net
        = w.after cart.ApiClient
            ((items.map fun elem => cart.itemDelete elem.ItemID).take (k + 1)) ∧
      (cart.deleteLoop items w).cart = cart ∧
      (cart.deleteLoop items w).ret
        = (cart.DeleteItem elem.ItemID
            (w.after cart.ApiClient
              ((items.map fun elem => cart.itemDelete elem.ItemID).take k))).ret ∧
      (cart.deleteLoop items w).ret ≠ none := by
  induction items generalizing w k with
  | nil => simp at helem
  | cons first items ih =>
    cases k with
    | zero =>
      simp only [List.map_cons, replies, List.getElem?_cons_zero, Option.some.injEq] at hk helem
      subst helem
      have hsome : (cart.DeleteItem first.ItemID w).ret ≠ none := by
        intro hnone
        have hf := (DeleteItem_failed cart first.ItemID w).mp hnone
        rw [hk, ho] at hf
        exact Bool.noConfusion hf
      rw [Cart.deleteLoop]
      cases hret : (cart.DeleteItem first.ItemID w).ret with
      | none => exact absurd hret hsome
      | some err =>
        simp only [DeleteItem_cart, DeleteItem_net, List.map_cons, List.take_succ_cons,
          List.take_zero, after_nil, hret]
        simp
    | succ k =>
      simp only [List.map_cons, replies, List.getElem?_cons_succ] at hk helem
      simp only [List.map_cons, replies, List.take_succ_cons, List.mem_cons,
        forall_eq_or_imp] at hpre
      have hnone := (DeleteItem_failed cart first.ItemID w).mpr hpre.1
      obtain ⟨h1, h2, h3, h4⟩ :=
        ih (w.after cart.ApiClient [cart.itemDelete first.ItemID]) k hk helem hpre.2
      rw [Cart.deleteLoop]
      simp only [hnone, DeleteItem_cart, DeleteItem_net]
      refine ⟨?_, h2, ?_, h4⟩
      · rw [h1, List.map_cons, List.take_succ_cons,
          after_cons w cart.ApiClient (cart.itemDelete first.ItemID)
            ((items.map fun elem => cart.itemDelete elem.ItemID).take (k + 1))]
      · rw [h3, List.map_cons, List.take_succ_cons,
          after_cons w cart.ApiClient (cart.itemDelete first.ItemID)
            ((items.map fun elem => cart.itemDelete elem.ItemID).take k)]

theorem DeleteAllItems_error (cart : Cart σ) (w : Net σ) (e : Error)
    (h : (cart.GetDetails w).ret = .error e) :
    (cart.DeleteAllItems w).net = w.after cart.ApiClient [cart.getRequest] ∧
      (cart.DeleteAllItems w).cart = cart ∧
      (cart.DeleteAllItems w).ret = some (.updateSelf e) := by
  obtain ⟨u1, u2⟩ := UpdateSelf_error cart w e h
  unfold Cart.DeleteAllItems
  simp only [u1, u2, UpdateSelf_net]
  exact ⟨trivial, trivial, trivial⟩

theorem DeleteAllItems_ok (cart : Cart σ) (w : Net σ) (d : DetailedCart)
    (h : (cart.GetDetails w).ret = .ok d) :
    cart.DeleteAllItems w
      = ({ cart with Detailed := d } : Cart σ).deleteLoop d.Items
          (w.after cart.ApiClient [cart.getRequest]) := by
  obtain ⟨u1, u2⟩ := UpdateSelf_ok cart w d h
  unfold Cart.DeleteAllItems
  simp only [u1, u2, UpdateSelf_net]

/-! ## Claims on `CreateOrder` -/

theorem CreateOrder_accepted (order : String) (cart : Cart σ) (paymentMethod : PaymentMethod)
    (w : Net σ) (resp : Response)
    (hreply : (cart.ApiClient.HttpClient w.remote (cart.orderPut paymentMethod)).2 = .ok resp)
    (hstatus : resp.StatusCode < 400) :
    (cart.CreateOrder order paymentMethod w).ret
      = match Atoi (MayTrimSurroundingQuotes resp.String) with
        | .error err => .error (.orderID err)
        | .ok orderIDInt =>
          .ok ⟨orderIDInt, cart.ApiClient,
            order ++ "/" ++ MayTrimSurroundingQuotes resp.String⟩ := by
  have hreq : (⟨.PUT, cart.Route ++ cartPlaceOrder,
      .PaymentMethod ⟨paymentMethod.Code⟩⟩ : Request) = cart.orderPut paymentMethod := rfl
  have hcode : ¬ resp.StatusCode ≥ 400 := by omega
  unfold Cart.CreateOrder
  simp only [hreq, execute_snd, hreply, if_neg hcode]
  split <;> rfl

/-- C2: when the PUT to `<route>/payment-information` is answered with a
status below 400, `CreateOrder` returns an Order with ID `n` for the body that
is the decimal text of `n` and for that text in double quotes, `n` any value
of the 64-bit `int`; a body that does not parse as an integer once the
surrounding quotes are stripped gives an error and no Order. -/
theorem CreateOrder_parses_order_id (order : String) (cart : Cart σ)
    (paymentMethod : PaymentMethod) (w : Net σ) (resp : Response)
    (hreply : (cart.ApiClient.HttpClient w.remote (cart.orderPut paymentMethod)).2 = .ok resp)
    (hstatus : resp.StatusCode < 400) :
    (∀ n : Int, -2 ^ 63 ≤ n → n < 2 ^ 63 →
      resp.String = Itoa n ∨ resp.String = "\"" ++ Itoa n ++ "\"" →
      ∃ o, (cart.CreateOrder order paymentMethod w).ret = .ok o ∧ o.ID = n) ∧
    (∀ e, Atoi (MayTrimSurroundingQuotes resp.String) = .error e →
      (cart.CreateOrder order paymentMethod w).ret = .error (.orderID e)) ∧
    (isIntegerText (MayTrimSurroundingQuotes resp.String) = false →
      ∃ e, (cart.CreateOrder order paymentMethod w).ret = .error (.orderID e)) := by
  have hret := CreateOrder_accepted order cart paymentMethod w resp hreply hstatus
  refine ⟨?_, ?_, ?_⟩
  · intro n hlo hhi hbody
    have htrim : MayTrimSurroundingQuotes resp.String = Itoa n := by
      rcases hbody with hb | hb
      · rw [hb, trim_Itoa]
      · rw [hb, trim_quoted]
    rw [htrim, Atoi_Itoa n hlo hhi] at hret
    exact ⟨_, hret, rfl⟩
  · intro e he
    rw [he] at hret
    exact hret
  · intro htext
    cases hparse : Atoi (MayTrimSurroundingQuotes resp.String) with
    | error e => rw [hparse] at hret; exact ⟨e, hret⟩
    | ok n => rw [Atoi_isIntegerText _ n hparse] at htext; exact Bool.noConfusion htext

/-- C2, on the scripted remote system: the bodies `"42"` (in quotes) and `-7`
give the IDs 42 and -7, and the body `4x2` gives a syntax error. -/
theorem CreateOrder_parses_order_id_witness :
    (∃ o, (demoCart.CreateOrder "/orders" demoPayment ⟨[plain 200 "\"42\""], []⟩).ret
        = .ok o ∧ o.ID = 42) ∧
    (∃ o, (demoCart.CreateOrder "/orders" demoPayment ⟨[plain 201 "-7"], []⟩).ret = .ok o ∧
      o.ID = -7) ∧
    (demoCart.CreateOrder "/orders" demoPayment ⟨[plain 200 "4x2"], []⟩).ret
      = .error (.orderID .ErrSyntax) :=
  ⟨(CreateOrder_parses_order_id "/orders" demoCart demoPayment ⟨[plain 200 "\"42\""], []⟩
      ⟨200, "\"42\"", default, [], []⟩ (by decide) (by decide)).1 42 (by decide) (by decide)
      (Or.inr (by decide)),
    (CreateOrder_parses_order_id "/orders" demoCart demoPayment ⟨[plain 201 "-7"], []⟩
      ⟨201, "-7", default, [], []⟩ (by decide) (by decide)).1 (-7) (by decide) (by decide)
      (Or.inl (by decide)),
    (CreateOrder_parses_order_id "/orders" demoCart demoPayment ⟨[plain 200 "4x2"], []⟩
      ⟨200, "4x2", default, [], []⟩ (by decide) (by decide)).2.1 .ErrSyntax (by decide)⟩

/-- C7 as stated fails: for the body `+42` the Order has ID 42 and the route
`/orders/+42`, which is not the base route followed by `/` and the decimal
rendering `42` of the ID. -/
theorem CreateOrder_route_counterexample :
    ((demoCart.CreateOrder "/orders" demoPayment ⟨[plain 200 "+42"], []⟩).ret.toOption.map
        fun o => (o.ID, o.Route)) = some (42, "/orders/+42") ∧
    ((demoCart.CreateOrder "/orders" demoPayment ⟨[plain 200 "+42"], []⟩).ret.toOption.map
        fun o => decide (o.Route = "/orders" ++ "/" ++ Itoa o.ID)) = some false := by
  constructor <;> decide

/-- C7, amended: whenever `CreateOrder` succeeds, the PUT was answered with a
response whose body, with the surrounding quotes stripped, parses to the ID
of the Order, and the Route is the orders base route followed by `/` and that
stripped text; when the body is the decimal rendering of a 64-bit integer,
bare or in double quotes, that text is the decimal rendering of the ID; the
ApiClient is the one of the cart. -/
theorem CreateOrder_route (order : String) (cart : Cart σ) (paymentMethod : PaymentMethod)
    (w : Net σ) (o : Order σ) (h : (cart.CreateOrder order paymentMethod w).ret = .ok o) :
    ∃ resp, (cart.ApiClient.HttpClient w.remote (cart.orderPut paymentMethod)).2 = .ok resp ∧
      o.Route = order ++ "/" ++ MayTrimSurroundingQuotes resp.String ∧
      Atoi (MayTrimSurroundingQuotes resp.String) = .ok o.ID ∧
      o.ApiClient = cart.ApiClient ∧
      (∀ n : Int, -2 ^ 63 ≤ n → n < 2 ^ 63 →
        resp.String = Itoa n ∨ resp.String = "\"" ++ Itoa n ++ "\"" →
        o.Route = order ++ "/" ++ Itoa o.ID) := by
  have hreq : (⟨.PUT, cart.Route ++ cartPlaceOrder,
      .PaymentMethod ⟨paymentMethod.Code⟩⟩ : Request) = cart.orderPut paymentMethod := rfl
  cases hreply : (cart.ApiClient.HttpClient w.remote (cart.orderPut paymentMethod)).2 with
  | error err =>
    unfold Cart.CreateOrder at h
    simp only [hreq, execute_snd, hreply] at h
    exact Except.noConfusion h
  | ok resp =>
    by_cases hcode : resp.StatusCode ≥ 400
    · unfold Cart.CreateOrder at h
      simp only [hreq, execute_snd, hreply, if_pos hcode] at h
      exact Except.noConfusion h
    · have hret := CreateOrder_accepted order cart paymentMethod w resp hreply (by omega)
      rw [h] at hret
      cases hparse : Atoi (MayTrimSurroundingQuotes resp.String) with
      | error e => rw [hparse] at hret; exact Except.noConfusion hret
      | ok i =>
        rw [hparse] at hret
        have ho : o = ⟨i, cart.ApiClient,
            order ++ "/" ++ MayTrimSurroundingQuotes resp.String⟩ := Except.ok.inj hret
        subst ho
        refine ⟨resp, rfl, rfl, hparse, rfl, ?_⟩
        intro n hlo hhi hbody
        have htrim : MayTrimSurroundingQuotes resp.String = Itoa n := by
          rcases hbody with hb | hb
          · rw [hb, trim_Itoa]
          · rw [hb, trim_quoted]
        rw [htrim, Atoi_Itoa n hlo hhi] at hparse
        have hi : n = i := Except.ok.inj hparse
        show order ++ "/" ++ MayTrimSurroundingQuotes resp.String = order ++ "/" ++ Itoa i
        rw [htrim, hi]

/-- C7, amended, on the scripted remote system: the quoted body `"42"` gives
the Order the route `/orders/42`. -/
theorem CreateOrder_route_witness :
    ∃ resp, (scripted.HttpClient [plain 200 "\"42\""] (demoCart.orderPut demoPayment)).2
        = .ok resp ∧
      ("/orders/42" : String) = "/orders" ++ "/" ++ MayTrimSurroundingQuotes resp.String ∧
      Atoi (MayTrimSurroundingQuotes resp.String) = .ok 42 :=
  have h := CreateOrder_route "/orders" demoCart demoPayment ⟨[plain 200 "\"42\""], []⟩
    ⟨42, scripted, "/orders/42"⟩ rfl
  h.elim fun resp hr => ⟨resp, hr.1, hr.2.1, hr.2.2.1⟩

/-! ## Claims on the refresh and on the deletions -/

/-- C6: `UpdateSelf` replaces `Detailed` wholesale.  When `GetDetails` gives
the snapshot `d`, the cart afterwards has `Detailed = d`, whatever `Detailed`
held before the call, and `Route`, `QuoteID` and `ApiClient` are the ones from
before; when `GetDetails` fails, an error is returned and the cart is left as
it was. -/
theorem UpdateSelf_replaces_Detailed (cart : Cart σ) (w : Net σ) :
    (∀ d, (cart.GetDetails w).ret = .ok d →
      (cart.UpdateSelf w).ret = none ∧
        (cart.UpdateSelf w).cart.Detailed = d ∧
        (cart.UpdateSelf w).cart.Route = cart.Route ∧
        (cart.UpdateSelf w).cart.QuoteID = cart.QuoteID ∧
        (cart.UpdateSelf w).cart.ApiClient = cart.ApiClient ∧
        (∀ stale : DetailedCart,
          (({ cart with Detailed := stale } : Cart σ).UpdateSelf w).cart
            = (cart.UpdateSelf w).cart)) ∧
    (∀ e, (cart.GetDetails w).ret = .error e →
      (cart.UpdateSelf w).ret = some (.updateSelf e) ∧ (cart.UpdateSelf w).cart = cart) := by
  refine ⟨?_, ?_⟩
  · intro d hd
    obtain ⟨u1, u2⟩ := UpdateSelf_ok cart w d hd
    refine ⟨u1, by rw [u2], by rw [u2], by rw [u2], by rw [u2], ?_⟩
    intro stale
    have hs : (({ cart with Detailed := stale } : Cart σ).GetDetails w).ret = .ok d := by
      rw [GetDetails_stale, hd]
    rw [u2, (UpdateSelf_ok _ w d hs).2]
  · intro e he
    exact UpdateSelf_error cart w e he

/-- C6, on the scripted remote system: a cart whose `Detailed` lists three
items is refreshed with an empty snapshot and ends with exactly that snapshot;
on status 500 it keeps the three items. -/
theorem UpdateSelf_replaces_Detailed_witness :
    (({ demoCart with Detailed := demoSnapshot } : Cart (List Reply)).UpdateSelf
        ⟨[snapshot ⟨[], 0⟩], []⟩).cart.Detailed = ⟨[], 0⟩ ∧
    (({ demoCart with Detailed := demoSnapshot } : Cart (List Reply)).UpdateSelf
        ⟨[plain 500 ""], []⟩).cart.Detailed = demoSnapshot :=
  ⟨((UpdateSelf_replaces_Detailed ({ demoCart with Detailed := demoSnapshot })
      ⟨[snapshot ⟨[], 0⟩], []⟩).1 ⟨[], 0⟩ (by decide)).2.1,
    congrArg Cart.Detailed
      ((UpdateSelf_replaces_Detailed ({ demoCart with Detailed := demoSnapshot })
        ⟨[plain 500 ""], []⟩).2 (.statusCode 500 "") (by decide)).2⟩

/-- C5: when the refresh succeeds with the snapshot `d`, `DeleteAllItems`
issues, after the GET, the DELETEs to `<route>/items/<itemID>` for the items
of `d` in snapshot order: all of them when none fails; when the DELETE at
position `k` (counted from zero) is the first to fail, the first `k + 1` of
them and no later one, and the error returned is the error `DeleteItem`
returned for that item.  When the refresh fails, the GET is the only request
and no DELETE is issued. -/
theorem DeleteAllItems_deletes_in_order (cart : Cart σ) (w : Net σ) :
    (∀ e, (cart.GetDetails w).ret = .error e →
      (cart.DeleteAllItems w).net.sent = w.sent ++ [cart.getRequest] ∧
        (cart.DeleteAllItems w).ret = some (.updateSelf e)) ∧
    (∀ d, (cart.GetDetails w).ret = .ok d →
      ((∀ o ∈ replies cart.ApiClient (w.after cart.ApiClient [cart.getRequest]).remote
            (d.Items.map fun elem => cart.itemDelete elem.ItemID), failed o = false) →
        (cart.DeleteAllItems w).net.sent
            = w.sent ++ [cart.getRequest]
              ++ d.Items.map (fun elem => cart.itemDelete elem.ItemID) ∧
          (cart.DeleteAllItems w).ret = none) ∧
      (∀ (k : Nat) (o : Reply) (elem : Item),
        (replies cart.ApiClient (w.after cart.ApiClient [cart.getRequest]).remote
            (d.Items.map fun elem => cart.itemDelete elem.ItemID))[k]? = some o →
        d.Items[k]? = some elem →
        (∀ o' ∈ (replies cart.ApiClient (w.after cart.ApiClient [cart.getRequest]).remote
            (d.Items.map fun elem => cart.itemDelete elem.ItemID)).take k, failed o' = false) →
        failed o = true →
        (cart.DeleteAllItems w).net.sent
            = w.sent ++ [cart.getRequest]
              ++ (d.Items.map fun elem => cart.itemDelete elem.ItemID).take (k + 1) ∧
          (cart.DeleteAllItems w).ret
            = (cart.DeleteItem elem.ItemID
                ((w.after cart.ApiClient [cart.getRequest]).after cart.ApiClient
                  ((d.Items.map fun elem => cart.itemDelete elem.ItemID).take k))).ret ∧
          (cart.DeleteAllItems w).ret ≠ none)) := by
  refine ⟨?_, ?_⟩
  · intro e he
    obtain ⟨h1, -, h3⟩ := DeleteAllItems_error cart w e he
    exact ⟨by rw [h1, after_sent], h3⟩
  · intro d hd
    rw [DeleteAllItems_ok cart w d hd]
    refine ⟨?_, ?_⟩
    · intro h
      rw [deleteLoop_pass ({ cart with Detailed := d }) d.Items _ h]
      exact ⟨rfl, rfl⟩
    · intro k o elem hk helem hpre ho
      obtain ⟨h1, -, h3, h4⟩ :=
        deleteLoop_fail ({ cart with Detailed := d }) d.Items _ k o elem hk helem hpre ho
      rw [DeleteItem_stale] at h3
      exact ⟨by rw [h1]; rfl, h3, h4⟩

/-- C5, on the scripted remote system with the snapshot of the items 1, 2, 3:
when every DELETE is accepted there are exactly three, for 1, 2 and 3 in that
order; when the DELETE for item 2 answers 500, the DELETE for item 3 is not
in the log and the error of item 2 is returned; when the refresh answers 500
the GET is the only request. -/
theorem DeleteAllItems_deletes_in_order_witness :
    (demoCart.DeleteAllItems
        ⟨[snapshot demoSnapshot, plain 200 "", plain 204 "", plain 200 ""], []⟩).net.sent
      = [⟨.GET, "/carts/7", .empty⟩, ⟨.DELETE, "/carts/7/items/1", .empty⟩,
         ⟨.DELETE, "/carts/7/items/2", .empty⟩, ⟨.DELETE, "/carts/7/items/3", .empty⟩] ∧
    ((demoCart.DeleteAllItems
          ⟨[snapshot demoSnapshot, plain 200 "", plain 500 "no", plain 200 ""], []⟩).net.sent
        = [⟨.GET, "/carts/7", .empty⟩, ⟨.DELETE, "/carts/7/items/1", .empty⟩,
           ⟨.DELETE, "/carts/7/items/2", .empty⟩] ∧
      (demoCart.DeleteAllItems
          ⟨[snapshot demoSnapshot, plain 200 "", plain 500 "no", plain 200 ""], []⟩).ret
        = some (.statusCode 500 "no")) ∧
    (demoCart.DeleteAllItems ⟨[plain 500 "", plain 200 ""], []⟩).net.sent
      = [⟨.GET, "/carts/7", .empty⟩] :=
  have hall := ((DeleteAllItems_deletes_in_order demoCart
    ⟨[snapshot demoSnapshot, plain 200 "", plain 204 "", plain 200 ""], []⟩).2
    demoSnapshot (by decide)).1 (by decide)
  have hsecond := ((DeleteAllItems_deletes_in_order demoCart
    ⟨[snapshot demoSnapshot, plain 200 "", plain 500 "no", plain 200 ""], []⟩).2
    demoSnapshot (by decide)).2 1 (plain 500 "no") ⟨2, "sku-b", 1, "stale"⟩
    (by decide) (by decide) (by decide) (by decide)
  have hrefresh := (DeleteAllItems_deletes_in_order demoCart
    ⟨[plain 500 "", plain 200 ""], []⟩).1 (.statusCode 500 "") (by decide)
  ⟨hall.1, ⟨hsecond.1, hsecond.2.1⟩, hrefresh.1⟩

/-- C9: `DeleteAllItems` does not refresh the cart after deleting.  Whenever
it returns nil, `Detailed` is the snapshot fetched at the start of the call,
so its `Items` are the items whose DELETEs have just been issued; and in every
case the requests of the call are one GET of the cart route followed by
DELETEs only. -/
theorem DeleteAllItems_keeps_snapshot (cart : Cart σ) (w : Net σ) :
    ((cart.DeleteAllItems w).ret = none →
      ∃ d, (cart.GetDetails w).ret = .ok d ∧
        (cart.DeleteAllItems w).cart.Detailed = d ∧
        (cart.DeleteAllItems w).net.sent
          = w.sent ++ cart.getRequest
            :: (cart.DeleteAllItems w).cart.Detailed.Items.map
                fun elem => cart.itemDelete elem.ItemID) ∧
    (∃ dels, (cart.DeleteAllItems w).net.sent = w.sent ++ cart.getRequest :: dels ∧
      ∀ req ∈ dels, req.method = .DELETE) := by
  cases hget : (cart.GetDetails w).ret with
  | error e =>
    obtain ⟨h1, -, h3⟩ := DeleteAllItems_error cart w e hget
    refine ⟨?_, [], by rw [h1, after_sent], by simp⟩
    intro hnone
    rw [h3] at hnone
    exact Option.noConfusion hnone
  | ok d =>
    rw [DeleteAllItems_ok cart w d hget]
    rcases first_failure (replies cart.ApiClient (w.after cart.ApiClient [cart.getRequest]).remote
        (d.Items.map fun elem => cart.itemDelete elem.ItemID)) with hall | ⟨k, o, hk, hpre, ho⟩
    · rw [deleteLoop_pass ({ cart with Detailed := d }) d.Items _ hall]
      refine ⟨fun _ => ⟨d, rfl, rfl, ?_⟩,
        d.Items.map (fun elem => cart.itemDelete elem.ItemID), ?_, ?_⟩
      · show (w.sent ++ [cart.getRequest]) ++ _ = _
        rw [List.append_assoc]
        rfl
      · show (w.sent ++ [cart.getRequest]) ++ _ = _
        rw [List.append_assoc]
        rfl
      · intro req hreq
        obtain ⟨elem, -, rfl⟩ := List.mem_map.mp hreq
        rfl
    · have hlt : k < d.Items.length := by
        by_contra hge
        rw [List.getElem?_eq_none (by rw [replies_length, List.length_map]; omega)] at hk
        exact Option.noConfusion hk
      obtain ⟨h1, -, -, h4⟩ := deleteLoop_fail ({ cart with Detailed := d }) d.Items _ k o
        (d.Items[k]) hk (List.getElem?_eq_getElem hlt) hpre ho
      refine ⟨fun hnone => absurd hnone h4,
        (d.Items.map fun elem => cart.itemDelete elem.ItemID).take (k + 1), ?_, ?_⟩
      · rw [h1]
        show (w.sent ++ [cart.getRequest]) ++ _ = _
        rw [List.append_assoc]
        rfl
      · intro req hreq
        obtain ⟨elem, -, rfl⟩ := List.mem_map.mp (List.mem_of_mem_take hreq)
        rfl

/-- C9, on the scripted remote system: after the three items have been
deleted remotely, `Detailed.Items` still lists them, and the log holds one
GET in front of the three DELETEs. -/
theorem DeleteAllItems_keeps_snapshot_witness :
    ∃ d, (demoCart.GetDetails
          ⟨[snapshot demoSnapshot, plain 200 "", plain 200 "", plain 200 ""], []⟩).ret
        = .ok d ∧
      (demoCart.DeleteAllItems
          ⟨[snapshot demoSnapshot, plain 200 "", plain 200 "", plain 200 ""], []⟩).cart.Detailed
        = d ∧
      (demoCart.DeleteAllItems
          ⟨[snapshot demoSnapshot, plain 200 "", plain 200 "", plain 200 ""], []⟩).net.sent
        = [] ++ demoCart.getRequest
          :: (demoCart.DeleteAllItems
                ⟨[snapshot demoSnapshot, plain 200 "", plain 200 "", plain 200 ""],
                  []⟩).cart.Detailed.Items.map
              fun elem => demoCart.itemDelete elem.ItemID :=
  (DeleteAllItems_keeps_snapshot demoCart
    ⟨[snapshot demoSnapshot, plain 200 "", plain 200 "", plain 200 ""], []⟩).1 (by decide)

/-! ## Claims on the status check and on the estimates -/

/-- C3: a response with status 400 or above and no transport error makes each
of `GetDetails`, `AddItems` (on the first POST that fails),
`EstimateShippingCarrier`, `AddShippingInformation`, `EstimatePaymentMethods`,
`CreateOrder` and `DeleteItem` return an error, whatever the body and the
decoded results of the response.  A response with a status below 400 is never
turned down for its status: `GetDetails` returns its snapshot, `AddItems` goes
on to a further request, the two estimates depend on the list alone,
`AddShippingInformation` returns what the refresh returns, `CreateOrder`
depends on the parse of the body alone and `DeleteItem` returns nil. -/
theorem status_check_is_uniform (cart : Cart σ) (w : Net σ) (resp : Response) :
    (resp.StatusCode ≥ 400 →
      ((cart.ApiClient.HttpClient w.remote cart.getRequest).2 = .ok resp →
        ∃ e, (cart.GetDetails w).ret = .error e) ∧
      (∀ (items : List Item) (k : Nat),
        (replies cart.ApiClient w.remote (items.map cart.itemPost))[k]? = some (.ok resp) →
        (∀ o' ∈ (replies cart.ApiClient w.remote (items.map cart.itemPost)).take k,
          failed o' = false) →
        (cart.AddItems items w).ret ≠ none) ∧
      (∀ addrInfo : Address,
        (cart.ApiClient.HttpClient w.remote (cart.estimatePost addrInfo)).2 = .ok resp →
        ∃ e, (cart.EstimateShippingCarrier addrInfo w).ret = .error e) ∧
      (∀ addrInfo : AddressInformation,
        (cart.ApiClient.HttpClient w.remote (cart.shippingPost addrInfo)).2 = .ok resp →
        (cart.AddShippingInformation addrInfo w).ret ≠ none) ∧
      ((cart.ApiClient.HttpClient w.remote cart.paymentGet).2 = .ok resp →
        ∃ e, (cart.EstimatePaymentMethods w).ret = .error e) ∧
      (∀ (order : String) (paymentMethod : PaymentMethod),
        (cart.ApiClient.HttpClient w.remote (cart.orderPut paymentMethod)).2 = .ok resp →
        ∃ e, (cart.CreateOrder order paymentMethod w).ret = .error e) ∧
      (∀ itemID : Int,
        (cart.ApiClient.HttpClient w.remote (cart.itemDelete itemID)).2 = .ok resp →
        (cart.DeleteItem itemID w).ret ≠ none)) ∧
    (resp.StatusCode < 400 →
      ((cart.ApiClient.HttpClient w.remote cart.getRequest).2 = .ok resp →
        (cart.GetDetails w).ret = .ok resp.detailedCart) ∧
      (∀ (items : List Item) (k : Nat),
        (replies cart.ApiClient w.remote (items.map cart.itemPost))[k]? = some (.ok resp) →
        (∀ o' ∈ (replies cart.ApiClient w.remote (items.map cart.itemPost)).take k,
          failed o' = false) →
        w.sent.length + (k + 1) + 1 ≤ (cart.AddItems items w).net.sent.length) ∧
      (∀ addrInfo : Address,
        (cart.ApiClient.HttpClient w.remote (cart.estimatePost addrInfo)).2 = .ok resp →
        (cart.EstimateShippingCarrier addrInfo w).ret
          = if resp.carriers.length = 0 then .error (.noShipping resp.String)
            else .ok resp.carriers) ∧
      (∀ addrInfo : AddressInformation,
        (cart.ApiClient.HttpClient w.remote (cart.shippingPost addrInfo)).2 = .ok resp →
        (cart.AddShippingInformation addrInfo w).ret
          = (cart.UpdateSelf (w.after cart.ApiClient [cart.shippingPost addrInfo])).ret) ∧
      ((cart.ApiClient.HttpClient w.remote cart.paymentGet).2 = .ok resp →
        (cart.EstimatePaymentMethods w).ret
          = if resp.paymentMethods.length = 0 then .error (.noPayment resp.String)
            else .ok resp.paymentMethods) ∧
      (∀ (order : String) (paymentMethod : PaymentMethod),
        (cart.ApiClient.HttpClient w.remote (cart.orderPut paymentMethod)).2 = .ok resp →
        (cart.CreateOrder order paymentMethod w).ret
          = match Atoi (MayTrimSurroundingQuotes resp.String) with
            | .error err => .error (.orderID err)
            | .ok orderIDInt =>
              .ok ⟨orderIDInt, cart.ApiClient,
                order ++ "/" ++ MayTrimSurroundingQuotes resp.String⟩) ∧
      (∀ itemID : Int,
        (cart.ApiClient.HttpClient w.remote (cart.itemDelete itemID)).2 = .ok resp →
        (cart.DeleteItem itemID w).ret = none)) := by
  refine ⟨?_, ?_⟩
  · intro hcode
    have hfailed : failed (.ok resp) = true := by simpa [failed] using hcode
    refine ⟨?_, ?_, ?_, ?_, ?_, ?_, ?_⟩
    · intro hreply
      exact ⟨_, by rw [GetDetails_reply cart w resp hreply, if_pos hcode]⟩
    · intro items k hk hpre
      exact (AddItems_fail cart items w k _ hk hpre hfailed).2.2
    · intro addrInfo hreply
      exact ⟨_, by rw [EstimateShippingCarrier_reply cart addrInfo w resp hreply, if_pos hcode]⟩
    · intro addrInfo hreply
      exact (AddShippingInformation_fail cart addrInfo w (by rw [hreply]; exact hfailed)).2.2
    · intro hreply
      exact ⟨_, by rw [EstimatePaymentMethods_reply cart w resp hreply, if_pos hcode]⟩
    · intro order paymentMethod hreply
      exact ⟨_, CreateOrder_rejected order cart paymentMethod w resp hreply hcode⟩
    · intro itemID hreply
      rw [DeleteItem_reply cart itemID w resp hreply, if_pos hcode]
      exact fun h => Option.noConfusion h
  · intro hcode
    have hnot : ¬ resp.StatusCode ≥ 400 := by omega
    have hpassed : failed (.ok resp) = false := by simpa [failed] using hcode
    refine ⟨?_, ?_, ?_, ?_, ?_, ?_, ?_⟩
    · intro hreply
      rw [GetDetails_reply cart w resp hreply, if_neg hnot]
    · intro items k hk hpre
      have hlt : k < items.length := by
        by_contra hge
        rw [List.getElem?_eq_none (by rw [replies_length, List.length_map]; omega)] at hk
        exact Option.noConfusion hk
      rcases first_failure (replies cart.ApiClient w.remote (items.map cart.itemPost))
        with hall | ⟨j, o, hj, hjpre, ho⟩
      · rw [(AddItems_pass cart items w hall).1, UpdateSelf_net, after_sent, after_sent]
        simp only [List.length_append, List.length_map, List.length_singleton]
        omega
      · have hjlt : j < items.length := by
          by_contra hge
          rw [List.getElem?_eq_none (by rw [replies_length, List.length_map]; omega)] at hj
          exact Option.noConfusion hj
        have hkj : k < j := by
          rcases Nat.lt_trichotomy k j with hlt' | heq | hgt
          · exact hlt'
          · subst heq
            rw [hk] at hj
            rw [← Option.some.inj hj, hpassed] at ho
            exact Bool.noConfusion ho
          · have hmem : o ∈ (replies cart.ApiClient w.remote (items.map cart.itemPost)).take k :=
              List.getElem?_mem (by rw [List.getElem?_take_of_lt hgt]; exact hj)
            rw [hpre o hmem] at ho
            exact Bool.noConfusion ho
        rw [(AddItems_fail cart items w j o hj hjpre ho).1, after_sent]
        simp only [List.length_append, List.length_take, List.length_map]
        omega
    · intro addrInfo hreply
      rw [EstimateShippingCarrier_reply cart addrInfo w resp hreply, if_neg hnot]
    · intro addrInfo hreply
      exact (AddShippingInformation_pass cart addrInfo w (by rw [hreply]; exact hpassed)).2.2
    · intro hreply
      rw [EstimatePaymentMethods_reply cart w resp hreply, if_neg hnot]
    · intro order paymentMethod hreply
      exact CreateOrder_accepted order cart paymentMethod w resp hreply hcode
    · intro itemID hreply
      rw [DeleteItem_reply cart itemID w resp hreply, if_neg hnot]

/-- C3, on the scripted remote system: a 404 whose body decodes to a full
snapshot still makes `GetDetails` fail, a 500 on the second POST makes
`AddItems` fail, a 400 makes `DeleteItem` fail, and a 399 is accepted by
`GetDetails`, which returns the zero snapshot the client left in the result,
and by `DeleteItem`. -/
theorem status_check_is_uniform_witness :
    ((∃ e, (demoCart.GetDetails ⟨[carted 404 demoSnapshot], []⟩).ret = .error e) ∧
      (demoCart.AddItems demoItems ⟨[plain 200 "", plain 500 ""], []⟩).ret ≠ none ∧
      (demoCart.DeleteItem 3 ⟨[plain 400 ""], []⟩).ret ≠ none) ∧
    ((demoCart.GetDetails ⟨[carted 399 demoSnapshot], []⟩).ret = .ok default ∧
      (demoCart.DeleteItem 3 ⟨[plain 399 ""], []⟩).ret = none) :=
  ⟨⟨((status_check_is_uniform demoCart ⟨[carted 404 demoSnapshot], []⟩
        (Answer.received ⟨404, "", demoSnapshot, [], []⟩)).1 (by decide)).1 (by decide),
      ((status_check_is_uniform demoCart ⟨[plain 200 "", plain 500 ""], []⟩
        ⟨500, "", default, [], []⟩).1 (by decide)).2.1 demoItems 1 (by decide) (by decide),
      ((status_check_is_uniform demoCart ⟨[plain 400 ""], []⟩
        ⟨400, "", default, [], []⟩).1 (by decide)).2.2.2.2.2.2 3 (by decide)⟩,
    ((status_check_is_uniform demoCart ⟨[carted 399 demoSnapshot], []⟩
        (Answer.received ⟨399, "", demoSnapshot, [], []⟩)).2 (by decide)).1 (by decide),
    ((status_check_is_uniform demoCart ⟨[plain 399 ""], []⟩
        ⟨399, "", default, [], []⟩).2 (by decide)).2.2.2.2.2.2 3 (by decide)⟩

theorem received_StatusCode (a : Answer) : a.received.StatusCode = a.StatusCode := by
  unfold Answer.received
  split <;> rfl

theorem received_String (a : Answer) : a.received.String = a.Body := by
  unfold Answer.received
  split <;> rfl

theorem received_success (a : Answer) (hlo : 200 ≤ a.StatusCode) (hhi : a.StatusCode < 300) :
    a.received.carriers = a.carriers ∧ a.received.paymentMethods = a.paymentMethods := by
  unfold Answer.received
  rw [if_pos ⟨hlo, hhi⟩]
  exact ⟨rfl, rfl⟩

theorem received_other (a : Answer) (h : a.StatusCode < 200 ∨ 300 ≤ a.StatusCode) :
    a.received.carriers = [] ∧ a.received.paymentMethods = [] := by
  unfold Answer.received
  rw [if_neg (by omega)]
  exact ⟨rfl, rfl⟩

/-- C4 as stated fails: when the remote system answers the shipping estimate
with status 399 and a list of one carrier, or the payment estimate with status
302 and a list of one payment method, the status is below 400 and the list is
not empty, but the client has not decoded it and both estimates return the
empty-result error instead of the list. -/
theorem estimates_counterexample :
    ((399 : Int) < 400 ∧
      (⟨399, "", default, [⟨"flatrate", 500⟩], []⟩ : Answer).carriers ≠ [] ∧
      (demoCart.EstimateShippingCarrier demoAddress
          ⟨[.ok (Answer.received ⟨399, "", default, [⟨"flatrate", 500⟩], []⟩)], []⟩).ret
        = .error (.noShipping "")) ∧
    ((302 : Int) < 400 ∧
      (⟨302, "", default, [], [demoPayment]⟩ : Answer).paymentMethods ≠ [] ∧
      (demoCart.EstimatePaymentMethods
          ⟨[.ok (Answer.received ⟨302, "", default, [], [demoPayment]⟩)], []⟩).ret
        = .error (.noPayment "")) := by
  decide

/-- C4, amended: when the remote system answers with a status below 400,
`EstimateShippingCarrier` and `EstimatePaymentMethods` return the empty-result
error for an empty list; for a non-empty list they return exactly that list,
with a nil error, when the status is one of 200 to 299, the statuses for which
the client decodes the body; for every other status below 400 the list is not
decoded and they return the empty-result error.  A nil error always comes
with a non-empty result. -/
theorem estimates_need_a_decoded_list (cart : Cart σ) (w : Net σ) :
    (∀ (addrInfo : Address) (a : Answer),
      (cart.ApiClient.HttpClient w.remote (cart.estimatePost addrInfo)).2 = .ok a.received →
      a.StatusCode < 400 →
      (a.carriers = [] →
        (cart.EstimateShippingCarrier addrInfo w).ret = .error (.noShipping a.Body)) ∧
      (200 ≤ a.StatusCode → a.StatusCode < 300 → a.carriers ≠ [] →
        (cart.EstimateShippingCarrier addrInfo w).ret = .ok a.carriers) ∧
      (a.StatusCode < 200 ∨ 300 ≤ a.StatusCode →
        (cart.EstimateShippingCarrier addrInfo w).ret = .error (.noShipping a.Body))) ∧
    (∀ a : Answer,
      (cart.ApiClient.HttpClient w.remote cart.paymentGet).2 = .ok a.received →
      a.StatusCode < 400 →
      (a.paymentMethods = [] →
        (cart.EstimatePaymentMethods w).ret = .error (.noPayment a.Body)) ∧
      (200 ≤ a.StatusCode → a.StatusCode < 300 → a.paymentMethods ≠ [] →
        (cart.EstimatePaymentMethods w).ret = .ok a.paymentMethods) ∧
      (a.StatusCode < 200 ∨ 300 ≤ a.StatusCode →
        (cart.EstimatePaymentMethods w).ret = .error (.noPayment a.Body))) ∧
    (∀ (addrInfo : Address) (cs : List Carrier),
      (cart.EstimateShippingCarrier addrInfo w).ret = .ok cs → cs ≠ []) ∧
    (∀ ps : List PaymentMethod, (cart.EstimatePaymentMethods w).ret = .ok ps → ps ≠ []) := by
  refine ⟨?_, ?_, ?_, ?_⟩
  · intro addrInfo a hreply hcode
    have hnot : ¬ a.received.StatusCode ≥ 400 := by rw [received_StatusCode]; omega
    rw [EstimateShippingCarrier_reply cart addrInfo w a.received hreply, if_neg hnot,
      received_String]
    have hother : a.StatusCode < 200 ∨ 300 ≤ a.StatusCode →
        (if a.received.carriers.length = 0 then
            (Except.error (.noShipping a.Body) : Except Error (List Carrier))
          else .ok a.received.carriers) = .error (.noShipping a.Body) := by
      intro h
      rw [(received_other a h).1]
      rfl
    refine ⟨?_, ?_, hother⟩
    · intro hnil
      rcases Int.lt_or_le a.StatusCode 200 with hlt | hge
      · exact hother (Or.inl hlt)
      · rcases Int.lt_or_le a.StatusCode 300 with hlt | hge'
        · rw [(received_success a hge hlt).1, hnil]
          rfl
        · exact hother (Or.inr hge')
    · intro hlo hhi hne
      rw [(received_success a hlo hhi).1,
        if_neg (fun hlen => hne (List.length_eq_zero.mp hlen))]
  · intro a hreply hcode
    have hnot : ¬ a.received.StatusCode ≥ 400 := by rw [received_StatusCode]; omega
    rw [EstimatePaymentMethods_reply cart w a.received hreply, if_neg hnot, received_String]
    have hother : a.StatusCode < 200 ∨ 300 ≤ a.StatusCode →
        (if a.received.paymentMethods.length = 0 then
            (Except.error (.noPayment a.Body) : Except Error (List PaymentMethod))
          else .ok a.received.paymentMethods) = .error (.noPayment a.Body) := by
      intro h
      rw [(received_other a h).2]
      rfl
    refine ⟨?_, ?_, hother⟩
    · intro hnil
      rcases Int.lt_or_le a.StatusCode 200 with hlt | hge
      · exact hother (Or.inl hlt)
      · rcases Int.lt_or_le a.StatusCode 300 with hlt | hge'
        · rw [(received_success a hge hlt).2, hnil]
          rfl
        · exact hother (Or.inr hge')
    · intro hlo hhi hne
      rw [(received_success a hlo hhi).2,
        if_neg (fun hlen => hne (List.length_eq_zero.mp hlen))]
  · intro addrInfo cs h
    exact EstimateShippingCarrier_ok cart addrInfo w cs h
  · intro ps h
    exact EstimatePaymentMethods_ok cart w ps h

/-- C4, amended, on the scripted remote system: status 200 with the list `[]`
is an error for both estimates; status 200 with one carrier, or status 201
with one payment method, returns that list; status 304 with one carrier is
the empty-result error. -/
theorem estimates_need_a_decoded_list_witness :
    ((demoCart.EstimateShippingCarrier demoAddress ⟨[offer 200 [] []], []⟩).ret
        = .error (.noShipping "") ∧
      (demoCart.EstimateShippingCarrier demoAddress
          ⟨[offer 200 [⟨"flatrate", 500⟩] []], []⟩).ret = .ok [⟨"flatrate", 500⟩] ∧
      (demoCart.EstimateShippingCarrier demoAddress
          ⟨[offer 304 [⟨"flatrate", 500⟩] []], []⟩).ret = .error (.noShipping "")) ∧
    ((demoCart.EstimatePaymentMethods ⟨[offer 200 [] []], []⟩).ret = .error (.noPayment "") ∧
      (demoCart.EstimatePaymentMethods ⟨[offer 201 [] [demoPayment]], []⟩).ret
        = .ok [demoPayment]) :=
  ⟨⟨((estimates_need_a_decoded_list demoCart ⟨[offer 200 [] []], []⟩).1 demoAddress
        ⟨200, "", default, [], []⟩ (by decide) (by decide)).1 (by decide),
      ((estimates_need_a_decoded_list demoCart
        ⟨[offer 200 [⟨"flatrate", 500⟩] []], []⟩).1 demoAddress
        ⟨200, "", default, [⟨"flatrate", 500⟩], []⟩ (by decide) (by decide)).2.1
        (by decide) (by decide) (by decide),
      ((estimates_need_a_decoded_list demoCart
        ⟨[offer 304 [⟨"flatrate", 500⟩] []], []⟩).1 demoAddress
        ⟨304, "", default, [⟨"flatrate", 500⟩], []⟩ (by decide) (by decide)).2.2
        (Or.inr (by decide))⟩,
    ((estimates_need_a_decoded_list demoCart ⟨[offer 200 [] []], []⟩).2.1
        ⟨200, "", default, [], []⟩ (by decide) (by decide)).1 (by decide),
    ((estimates_need_a_decoded_list demoCart ⟨[offer 201 [] [demoPayment]], []⟩).2.1
        ⟨201, "", default, [], [demoPayment]⟩ (by decide) (by decide)).2.1
        (by decide) (by decide) (by decide)⟩

end Magento2
